import Mathlib

/-
Verification development for the cred360 credit-analysis service.
Each definition below is a shallow embedding of a function of the source
tree (src/tools/AlertTool.py, src/tools/mcp_tools.py,
src/api/routers/get_recommendations.py, src/api/routers/reports.py,
src/api/utils/helpers.py, src/agents/CMA_Customer_Alerts.py).
Machine floats of the source are embedded as exact rationals; Python
strings are embedded as Lean strings (or as lists of Unicode code points
where character-level reasoning is needed).
-/

namespace Cred360

/-! Part 1: fiscal-year target date.
`FinancialDataExtractor._calculate_target_date` in
src/agents/CMA_Customer_Alerts.py reads `datetime.now()` and uses only
`now.year` and `now.month`; it is embedded as a pure function of those
two components. -/

/-- Embedding of `_calculate_target_date`: March 31 of the current year
when the current month is after March, else March 31 of the previous
year, rendered as "31.03.YYYY". -/
def calculate_target_date (year month : Int) : String :=
  if month > 3 then "31.03." ++ toString year
  else "31.03." ++ toString (year - 1)

/-! Part 2: account-name sanitization.
`sanitize_filename` in src/api/utils/helpers.py does
`re.sub(r'[-, ]+', '_', s).lower().strip()` (empty input short-circuits
to ""). Strings are embedded as lists of Unicode code points so that the
character-level substitution can be reasoned about directly. -/

/-- Code points replaced by the regex class `[-, ]`: hyphen (45),
comma (44), space (32). -/
def pyBad (c : Nat) : Bool := c == 45 || c == 44 || c == 32

/-- Embedding of `re.sub(r'[-, ]+', '_', s)`: every maximal run of
hyphen/comma/space characters is replaced by a single underscore (95).
A run is skipped until its last character, where the underscore is
emitted. -/
def squashBad : List Nat → List Nat
  | [] => []
  | [c] => if pyBad c then [95] else [c]
  | c :: d :: cs =>
    if pyBad c then
      if pyBad d then squashBad (d :: cs) else 95 :: squashBad (d :: cs)
    else c :: squashBad (d :: cs)

/-- Embedding of `str.lower` on a code point (ASCII letters; the claims
are insensitive to the non-ASCII cases of the Unicode table). -/
def pyLower (c : Nat) : Nat := if 65 ≤ c ∧ c ≤ 90 then c + 32 else c

/-- Code points stripped by `str.strip()` (ASCII whitespace plus the
Latin-1 cases NEL and NBSP). -/
def pyIsSpace (c : Nat) : Bool :=
  c == 32 || c == 9 || c == 10 || c == 13 || c == 11 || c == 12 ||
  c == 28 || c == 29 || c == 30 || c == 31 || c == 133 || c == 160

/-- Leading-whitespace removal. -/
def frontStrip (l : List Nat) : List Nat := l.dropWhile pyIsSpace

/-- Trailing-whitespace removal. -/
def backStrip (l : List Nat) : List Nat := (l.reverse.dropWhile pyIsSpace).reverse

/-- Embedding of `str.strip()`. -/
def pyStrip (l : List Nat) : List Nat := backStrip (frontStrip l)

/-- Embedding of `sanitize_filename`: empty input returns "", otherwise
the regex substitution, then lower-casing, then stripping. -/
def sanitize_filename (s : List Nat) : List Nat :=
  if s = [] then [] else pyStrip ((squashBad s).map pyLower)

/-! Part 3: the alert rule table and classifier
(src/tools/AlertTool.py). Values are embedded as exact rationals; the
decimal literals of the source are exact in ℚ. The table preserves the
source's dict insertion order of both the attributes and the three
bands (High, Medium, Low). -/

/-- The `type` tag of a rule: ratio, deviation or percentage. -/
inductive AttrType
  | R
  | Dev
  | P
deriving DecidableEq

/-- One entry of `attribute_rules`: the type tag and the three band
predicates, kept in the source's order High, Medium, Low. -/
structure AttrRule where
  atype : AttrType
  high : ℚ → Bool
  medium : ℚ → Bool
  low : ℚ → Bool

/-- Embedding of the `attribute_rules` dict of src/tools/AlertTool.py,
as an insertion-ordered association list. Every lambda is transcribed
from the source, including the chained comparisons of "adjusted tnw"
(`10 <= x <= 7` and `7 <= x <= 5`, which in Python mean
`10 <= x and x <= 7`, resp. `7 <= x and x <= 5`). -/
def attribute_rules : List (String × AttrRule) :=
  [ ("current ratio",
      ⟨.R, fun x => decide (x < 1.0),
           fun x => decide (1.0 ≤ x ∧ x < 1.2),
           fun x => decide (1.2 ≤ x ∧ x ≤ 1.33)⟩),
    ("net sales",
      ⟨.Dev, fun x => decide (x > 20),
             fun x => decide (15 ≤ x ∧ x ≤ 20),
             fun x => decide (10 ≤ x ∧ x < 15)⟩),
    ("net cash accrual to net sales",
      ⟨.Dev, fun x => decide (x > 0.20),
             fun x => decide (0.10 < x ∧ x ≤ 0.20),
             fun x => decide (0.05 < x ∧ x ≤ 0.10)⟩),
    ("net sales to total assets ratio",
      ⟨.R, fun x => decide (x < 0.70),
           fun x => decide (0.70 < x ∧ x ≤ 0.90),
           fun x => decide (0.90 < x ∧ x ≤ 1.00)⟩),
    ("roe %",
      ⟨.P, fun x => decide (x < 5),
           fun x => decide (5 ≤ x ∧ x < 7),
           fun x => decide (7 ≤ x ∧ x ≤ 8)⟩),
    ("roce %",
      ⟨.P, fun x => decide (x < 12),
           fun x => decide (12 ≤ x ∧ x < 14),
           fun x => decide (10 ≤ x ∧ x ≤ 14)⟩),
    ("ronw %",
      ⟨.P, fun x => decide (x < 10),
           fun x => decide (10 ≤ x ∧ x < 14),
           fun x => decide (14 ≤ x ∧ x ≤ 15)⟩),
    ("quick ratio",
      ⟨.R, fun x => decide (x < 1.0),
           fun x => decide (1.0 ≤ x ∧ x < 1.25),
           fun x => decide (1.25 ≤ x ∧ x ≤ 1.33)⟩),
    ("debt to equity ratio",
      ⟨.R, fun x => decide (x > 3.0),
           fun x => decide (2.0 ≤ x ∧ x ≤ 2.5),
           fun x => decide (1.5 ≤ x ∧ x < 2.0)⟩),
    ("tol/tnw ratio",
      ⟨.R, fun x => decide (x > 4.0),
           fun x => decide (2.50 ≤ x ∧ x ≤ 3.00),
           fun x => decide (1.50 ≤ x ∧ x < 2.50)⟩),
    ("debt service coverage ratio (dscr)",
      ⟨.R, fun x => decide (x < 1.0),
           fun x => decide (1.0 ≤ x ∧ x ≤ 1.25),
           fun x => decide (1.25 ≤ x ∧ x < 1.5)⟩),
    ("adjusted tnw",
      ⟨.Dev, fun x => decide (x > 10),
             fun x => decide (10 ≤ x ∧ x ≤ 7),
             fun x => decide (7 ≤ x ∧ x ≤ 5)⟩),
    ("interest coverage ratio (icr)",
      ⟨.Dev, fun x => decide (x < 1.5),
             fun x => decide (1.5 ≤ x ∧ x ≤ 1.75),
             fun x => decide (1.75 ≤ x ∧ x ≤ 2.0)⟩),
    ("total debt to ebitda",
      ⟨.R, fun x => decide (x > 2.0),
           fun x => decide (2.0 ≤ x ∧ x ≤ 3.0),
           fun x => decide (3.0 ≤ x ∧ x ≤ 4.0)⟩),
    ("unhedged foreign currency exposure",
      ⟨.Dev, fun x => decide (x > 30),
             fun x => decide (20 ≤ x ∧ x ≤ 30),
             fun x => decide (10 ≤ x ∧ x ≤ 20)⟩),
    ("net profit margin",
      ⟨.Dev, fun x => decide (x > 20),
             fun x => decide (10 ≤ x ∧ x ≤ 20),
             fun x => decide (5 ≤ x ∧ x ≤ 10)⟩),
    ("fixed assets coverage ratio (facr)",
      ⟨.R, fun x => decide (x < 1.5),
           fun x => decide (1.5 ≤ x ∧ x ≤ 1.75),
           fun x => decide (1.75 < x ∧ x ≤ 2.0)⟩),
    ("assets coverage ratio (acr)",
      ⟨.R, fun x => decide (x < 1.5),
           fun x => decide (1.5 ≤ x ∧ x ≤ 2.0),
           fun x => decide (2.0 < x ∧ x ≤ 2.5)⟩) ]

/-- Dict lookup on the ordered association list (Python dict keys are
unique, so first-match lookup coincides with dict access). -/
def lookupRule : List (String × AttrRule) → String → Option AttrRule
  | [], _ => none
  | (k, r) :: rest, key => if k == key then some r else lookupRule rest key

/-- Embedding of Python `round(q, 2)`: round half to even at two
decimal places. -/
def roundHalfEven (q : ℚ) : ℤ :=
  let f := ⌊q⌋
  let frac := q - f
  if frac < 1/2 then f
  else if 1/2 < frac then f + 1
  else if f % 2 = 0 then f else f + 1

/-- Two-decimal rounding used in the alert message. -/
def round2 (q : ℚ) : ℚ := (roundHalfEven (q * 100) : ℚ) / 100

/-- Decimal rendering of the rounded value inside a message. The claims
compare whole messages produced by the same renderer, so the exact
digit string (here the ℚ printer standing in for Python's float
printer) is immaterial. -/
def showQ (q : ℚ) : String := toString q

/-- Message rendering of `evaluate_attribute` for a matched band,
following the three f-strings of the source keyed on the rule type. -/
def renderAlert (t : AttrType) (rating attr : String) (v : ℚ) (year : String) : String :=
  match t with
  | .R => rating ++ " Alert: " ++ attr ++ " is " ++ showQ v ++ " in last audited " ++ year ++ "."
  | .Dev => rating ++ " Alert: Deviation in " ++ attr ++ " is " ++ showQ v ++ "% in last audited " ++ year ++ "."
  | .P => rating ++ " Alert: " ++ attr ++ " is " ++ showQ v ++ "% in last audited " ++ year ++ "."

/-- The fall-through message of `evaluate_attribute`. -/
def unclassifiedMsg (attr : String) (value : ℚ) : String :=
  "Unclassified Alert: " ++ attr ++ " with value " ++ showQ (round2 value) ++
    " does not match any defined range."

/-- Embedding of the inner `evaluate_attribute` of
`classify_financial_attributes` (src/tools/AlertTool.py, lines
288-306): look the attribute up in the rule table, test the bands in
the order High, Medium, Low, return the message of the first band that
holds, else the Unclassified message. -/
def evaluate_attribute (attr : String) (value : ℚ) (year : String) : String :=
  match lookupRule attribute_rules attr with
  | none => "No rating rule defined for " ++ attr
  | some rule =>
    if rule.high value then renderAlert rule.atype "High" attr (round2 value) year
    else if rule.medium value then renderAlert rule.atype "Medium" attr (round2 value) year
    else if rule.low value then renderAlert rule.atype "Low" attr (round2 value) year
    else unclassifiedMsg attr value

/-! Part 4: the P&L MCP tool (src/tools/mcp_tools.py,
`calculate_pl_statement_metrics`). A DataFrame column is embedded as a
list of rationals, one entry per period row; pandas column arithmetic
is element-wise, embedded with `List.zipWith`. Only the computed
columns that are pure column arithmetic are needed by the claims; the
division-based columns (margins, EPS, tax) are not modelled here. -/

/-- The numeric input columns of `calculate_pl_statement_metrics`, as
produced by `ast.literal_eval` on the extracted sheet data. -/
structure PLInput where
  grossSalesLocal : List ℚ
  grossSalesExports : List ℚ
  openingSIP : List ℚ
  rawMaterialsImported : List ℚ
  rawMaterialsIndigeneous : List ℚ
  otherSpares : List ℚ
  powerAndFuel : List ℚ
  directLabour : List ℚ
  repairsAndMain : List ℚ
  otherOperatingExp : List ℚ
  depreciation : List ℚ
  closingSIP : List ℚ
  sgaExpenses : List ℚ

/-- `df["Total Revenue"] = df["Gross Sales Local"] + df["Gross Sales Exports"]`. -/
def totalRevenue (p : PLInput) : List ℚ :=
  List.zipWith (· + ·) p.grossSalesLocal p.grossSalesExports

/-- `df["COGS"]`: the nine cost columns summed left to right, minus
Closing SIP. -/
def cogsCol (p : PLInput) : List ℚ :=
  List.zipWith (· - ·)
    (List.zipWith (· + ·)
      (List.zipWith (· + ·)
        (List.zipWith (· + ·)
          (List.zipWith (· + ·)
            (List.zipWith (· + ·)
              (List.zipWith (· + ·)
                (List.zipWith (· + ·)
                  (List.zipWith (· + ·) p.openingSIP p.rawMaterialsImported)
                  p.rawMaterialsIndigeneous)
                p.otherSpares)
              p.powerAndFuel)
            p.directLabour)
          p.repairsAndMain)
        p.otherOperatingExp)
      p.depreciation)
    p.closingSIP

/-- `df["Operating Expenses"] = df["SG&A Expenses"]`. -/
def operatingExpenses (p : PLInput) : List ℚ := p.sgaExpenses

/-- `df["EBIT"] = df["Total Revenue"] - df["COGS"] - df["Operating Expenses"]`. -/
def ebitCol (p : PLInput) : List ℚ :=
  List.zipWith (· - ·) (List.zipWith (· - ·) (totalRevenue p) (cogsCol p))
    (operatingExpenses p)

/-- `df["EBITDA"] = df["EBIT"] + df["Depreciation"]`. -/
def ebitdaCol (p : PLInput) : List ℚ :=
  List.zipWith (· + ·) (ebitCol p) p.depreciation

/-! Part 5: the reports endpoint's result ordering
(src/api/routers/reports.py, line 146):
`report_files_content.sort(key=lambda x: (x['type'] != 'cumulative', x['report_name']))`.
A result entry is embedded by the two key fields plus the content; the
Python stable sort by the key tuple is embedded as an insertion sort by
the same key order (False < True on the first component, code-point
order on the name). -/

/-- One entry of `report_files_content`. -/
structure Report where
  report_name : String
  rtype : String
  content : String
deriving DecidableEq

/-- Python tuple-key comparison `(x.type != 'cumulative', x.report_name) <= ...`
used by the sort. -/
def reportKeyLe (a b : Report) : Bool :=
  let ta := a.rtype != "cumulative"
  let tb := b.rtype != "cumulative"
  (!ta && tb) || (ta == tb && decide (a.report_name ≤ b.report_name))

/-- Ordered insertion for the sort. -/
def insertReport (a : Report) : List Report → List Report
  | [] => [a]
  | b :: bs => if reportKeyLe a b then a :: b :: bs else b :: insertReport a bs

/-- Embedding of `report_files_content.sort(key=...)`: sort ascending
by the key tuple. -/
def sortReports : List Report → List Report
  | [] => []
  | a :: as' => insertReport a (sortReports as')

/-! Part 6: `create_alerts_data` (src/tools/AlertTool.py, lines
316-373). The extraction record is embedded as an insertion-ordered
association list from column name to its list of values; Python
KeyError / IndexError / ZeroDivisionError are embedded as the error
case of `Except`. -/

/-- Dict lookup on the extraction record. -/
def lookupA : List (String × List ℚ) → String → Option (List ℚ)
  | [], _ => none
  | (k, v) :: rest, key => if k == key then some v else lookupA rest key

/-- The guarded headline extraction: `if input_key and input_key in
data:` then `value_list[0]` if the list is non-empty, else the value
stays `None`. -/
def getVal (data : List (String × List ℚ)) (k : String) : Option ℚ :=
  match lookupA data k with
  | some (v :: _) => some v
  | _ => none

/-- The unguarded access `data[k][0]` used by the derived ratios:
a missing key is a KeyError, an empty list an IndexError. -/
def getReq (data : List (String × List ℚ)) (k : String) : Except String ℚ :=
  match lookupA data k with
  | none => Except.error ("KeyError: " ++ k)
  | some [] => Except.error ("IndexError: " ++ k)
  | some (v :: _) => Except.ok v

/-- Python float division: raises ZeroDivisionError on a zero
denominator, otherwise exact division. -/
def safeDiv (a b : ℚ) : Except String ℚ :=
  if b = 0 then Except.error "ZeroDivisionError" else pure (a / b)

/-- `desired_attributes` of the source. -/
def desired_attributes : List String :=
  [ "Current Ratio", "Debt to Equity Ratio", "TOL/TNW Ratio",
    "Debt Service Coverage Ratio (DSCR)", "Adjusted TNW", "Net Sales",
    "Total Debt to EBITDA", "ROE %" ]

/-- `key_mapping` of the source. -/
def key_mapping (s : String) : Option String :=
  if s == "Current Ratio" then some "Current Ratio"
  else if s == "Debt to Equity Ratio" then some "Debt/Equity Ratio"
  else if s == "TOL/TNW Ratio" then some "TOL/TNW Ratio"
  else if s == "Debt Service Coverage Ratio (DSCR)" then some "DSCR"
  else if s == "Adjusted TNW" then some "Adjusted TNW"
  else if s == "Net Sales" then some "Net Sales"
  else if s == "Total Debt to EBITDA" then some "Debt/EBIDTA %"
  else if s == "ROE %" then some "Return on Equity %"
  else none

/-- The headline part of the output record: every desired attribute is
mapped to the singleton `[extracted_value]`, which is `None` when the
mapped key is absent or its list empty. -/
def headlineData (data : List (String × List ℚ)) : List (String × List (Option ℚ)) :=
  desired_attributes.map fun dn =>
    (dn, [match key_mapping dn with
          | some k => getVal data k
          | none => none])

/-- Embedding of `create_alerts_data`: the headline map never raises;
the three derived ratios read their source fields with `data[k][0]`
(raising on a missing key or empty list) and divide (raising on a zero
denominator), in the source's evaluation order. -/
def create_alerts_data (data : List (String × List ℚ)) :
    Except String (List (String × List (Option ℚ))) := do
  let rmImp ← getReq data "a) R.M. Imported"
  let rmInd ← getReq data "b) R.M. Indigenous"
  let sipStock ← getReq data "c) Stock in Process"
  let finGoods ← getReq data "d) Finished Goods"
  let otherCons ← getReq data "e) Other Consumables"
  let inventory := (rmImp + rmInd + sipStock + finGoods + otherCons) / 100
  let curAssets ← getReq data "Current Assets"
  let curLiab ← getReq data "Current Liabilities"
  let quickRatio ← safeDiv (curAssets - inventory) curLiab
  let gsl ← getReq data "Gross Sales Local"
  let gse ← getReq data "Gross Sales Exports"
  let osip ← getReq data "Opening S.I.P."
  let rawImp ← getReq data "Raw Materials Imported"
  let rawInd ← getReq data "Raw Materials Indigeneous"
  let spares ← getReq data "Other Spares"
  let pf ← getReq data "Power & Fuel"
  let dl ← getReq data "Direct Labour"
  let rep ← getReq data "Repairs & Main"
  let ooe ← getReq data "Other Operating Exp"
  let dep ← getReq data "Depreciation"
  let csip ← getReq data "Closing S.I.P"
  let sga ← getReq data "SG&A Expenses"
  let icr := (((gsl + gse) -
      (osip + rawImp + rawInd + spares + pf + dl + rep + ooe + dep - csip)) - sga) / 100
  let cashAcc ← getReq data "Cash Accruals"
  let netSales ← getReq data "Net Sales"
  let nca ← safeDiv cashAcc netSales
  return headlineData data ++
    [ ("Quick Ratio", [some quickRatio]),
      ("Interest Coverage Ratio (ICR)", [some icr]),
      ("Net Cash Accrual to Net Sales", [some nca]) ]

/-- The source fields read unguardedly by the three derived ratios. -/
def requiredKeys : List String :=
  [ "a) R.M. Imported", "b) R.M. Indigenous", "c) Stock in Process",
    "d) Finished Goods", "e) Other Consumables", "Current Assets",
    "Current Liabilities", "Gross Sales Local", "Gross Sales Exports",
    "Opening S.I.P.", "Raw Materials Imported", "Raw Materials Indigeneous",
    "Other Spares", "Power & Fuel", "Direct Labour", "Repairs & Main",
    "Other Operating Exp", "Depreciation", "Closing S.I.P", "SG&A Expenses",
    "Cash Accruals", "Net Sales" ]

/-- An extraction record carrying every field the derived ratios read,
with nonzero denominators, but with the headline field
"Current Ratio" absent. -/
def cexAlertsData : List (String × List ℚ) :=
  [ ("a) R.M. Imported", [0]), ("b) R.M. Indigenous", [1]),
    ("c) Stock in Process", [2]), ("d) Finished Goods", [3]),
    ("e) Other Consumables", [4]), ("Current Assets", [5]),
    ("Current Liabilities", [1]), ("Gross Sales Local", [6]),
    ("Gross Sales Exports", [7]), ("Opening S.I.P.", [8]),
    ("Raw Materials Imported", [9]), ("Raw Materials Indigeneous", [10]),
    ("Other Spares", [11]), ("Power & Fuel", [12]), ("Direct Labour", [13]),
    ("Repairs & Main", [14]), ("Other Operating Exp", [15]),
    ("Depreciation", [16]), ("Closing S.I.P", [17]), ("SG&A Expenses", [18]),
    ("Cash Accruals", [19]), ("Net Sales", [1]) ]

/-- The same record with "Cash Accruals" (a derived-ratio source)
removed as well. -/
def cexMissingCashAccruals : List (String × List ℚ) :=
  [ ("a) R.M. Imported", [0]), ("b) R.M. Indigenous", [1]),
    ("c) Stock in Process", [2]), ("d) Finished Goods", [3]),
    ("e) Other Consumables", [4]), ("Current Assets", [5]),
    ("Current Liabilities", [1]), ("Gross Sales Local", [6]),
    ("Gross Sales Exports", [7]), ("Opening S.I.P.", [8]),
    ("Raw Materials Imported", [9]), ("Raw Materials Indigeneous", [10]),
    ("Other Spares", [11]), ("Power & Fuel", [12]), ("Direct Labour", [13]),
    ("Repairs & Main", [14]), ("Other Operating Exp", [15]),
    ("Depreciation", [16]), ("Closing S.I.P", [17]), ("SG&A Expenses", [18]),
    ("Net Sales", [1]) ]

/-! Part 7: the recommendation generator
(src/api/routers/get_recommendations.py, `generate_recommendations`).
Python `datetime.date` is embedded as a year/month/day triple ordered
lexicographically; `dateutil.relativedelta` month arithmetic adds to
the month index and clamps the day to the target month's length, and
its day arithmetic is exact calendar-day shifting (via rata-die
conversion). Company fields are embedded post-`parse_db_date`, i.e. as
`Option Date` (the claims quantify over parsed / unparseable dates). -/

/-- A calendar date. -/
structure Date where
  year : Int
  month : Int
  day : Int
deriving DecidableEq

/-- Gregorian leap year. -/
def isLeap (y : Int) : Bool := (y % 4 == 0 && y % 100 != 0) || y % 400 == 0

/-- Length of a month. -/
def daysInMonth (y m : Int) : Int :=
  if m = 2 then (if isLeap y then 29 else 28)
  else if m = 4 ∨ m = 6 ∨ m = 9 ∨ m = 11 then 30
  else 31

/-- Month index: months since year 0, used by relativedelta month
arithmetic. -/
def mIdx (d : Date) : Int := d.year * 12 + d.month - 1

/-- `d + relativedelta(months=n)`: shift the month index, clamp the day
to the target month (dateutil clamps with `calendar.monthrange`). -/
def addMonths (d : Date) (n : Int) : Date :=
  let t := mIdx d + n
  let y := t.ediv 12
  let m := t.emod 12 + 1
  ⟨y, m, min d.day (daysInMonth y m)⟩

/-- Rata-die day number (days-from-civil), for exact day arithmetic. -/
def toRD (d : Date) : Int :=
  let y := if d.month ≤ 2 then d.year - 1 else d.year
  let era := y.ediv 400
  let yoe := y - era * 400
  let mp := (d.month + 9).emod 12
  let doy := (153 * mp + 2).ediv 5 + d.day - 1
  let doe := yoe * 365 + yoe.ediv 4 - yoe.ediv 100 + doy
  era * 146097 + doe - 719468

/-- Inverse rata-die conversion (civil-from-days). -/
def fromRD (z0 : Int) : Date :=
  let z := z0 + 719468
  let era := z.ediv 146097
  let doe := z - era * 146097
  let yoe := (doe - doe.ediv 1460 + doe.ediv 36524 - doe.ediv 146096).ediv 365
  let y := yoe + era * 400
  let doy := doe - (365 * yoe + yoe.ediv 4 - yoe.ediv 100)
  let mp := (5 * doy + 2).ediv 153
  let dd := doy - (153 * mp + 2).ediv 5 + 1
  let m := mp + (if mp < 10 then 3 else -9)
  ⟨y + (if m ≤ 2 then 1 else 0), m, dd⟩

/-- `d + relativedelta(days=n)` (equivalently `d + timedelta(days=n)`). -/
def addDays (d : Date) (n : Int) : Date := fromRD (toRD d + n)

/-- A relativedelta as used by the rule table: a pure month shift
(years are stored as 12 months) or a pure day shift. -/
inductive RDelta
  | months : Int → RDelta
  | days : Int → RDelta

/-- Date plus delta. -/
def addDelta (d : Date) : RDelta → Date
  | RDelta.months n => addMonths d n
  | RDelta.days n => addDays d n

/-- Date minus delta. -/
def subDelta (d : Date) : RDelta → Date
  | RDelta.months n => addMonths d (-n)
  | RDelta.days n => addDays d (-n)

/-- Python date `<` (lexicographic on year, month, day). -/
def dltB (a b : Date) : Bool :=
  a.year < b.year ||
  (a.year == b.year && (a.month < b.month ||
    (a.month == b.month && a.day < b.day)))

/-- Python date `<=`. -/
def dleB (a b : Date) : Bool := dltB a b || a == b

/-- Zero-padded two-digit rendering for `%d` / `%m`. -/
def pad2 (n : Int) : String := if n < 10 then "0" ++ toString n else toString n

/-- Four-digit rendering for `%Y`. -/
def pad4 (n : Int) : String :=
  if n < 10 then "000" ++ toString n
  else if n < 100 then "00" ++ toString n
  else if n < 1000 then "0" ++ toString n
  else toString n

/-- Embedding of `format_date_for_output` on a present date:
`strftime('%d.%m.%Y')`. -/
def formatDate (d : Date) : String :=
  pad2 d.day ++ "." ++ pad2 d.month ++ "." ++ pad4 d.year

/-- The company fields consumed by `generate_recommendations`, after
`parse_db_date` (a field is `none` when absent or unparseable). -/
structure CompanyData where
  date_valuation_report : Option Date
  date_last_sanction : Option Date
  date_lsr : Option Date
  date_internal_rating : Option Date
  date_external_rating : Option Date
  date_tev_report : Option Date
  date_stock_statement : Option Date
  date_of_bank_credit_report : Option Date
  date_of_last_audit : Option Date

/-- Append-if-absent, the `if action_str not in actions: actions.append(...)`
idiom of the source. -/
def addU (l : List String) (s : String) : List String :=
  if s ∈ l then l else l ++ [s]

/-- The rendered action strings. Every template of the source either
contains `<date>` exactly once, as its final six characters (so
`template.replace("<date>", fd)` is the prefix followed by the
formatted date), or contains no `<date>` at all (the stock-statement
rule, where `replace` is the identity). -/
def valMsg (fd : String) : String :=
  "Obtain latest valuation report before it expires; last valuation report was taken on " ++ fd

/-- Current-month action of the `date_last_sanction` rule. -/
def sancCurMsg (fd : String) : String :=
  "The account is due for renewal; last sanction/renewal date was " ++ fd

/-- Future action of the `date_last_sanction` rule. -/
def sancFutMsg (fd : String) : String :=
  "The account will be due for renewal; last sanction/renewal date was " ++ fd

/-- Action of the `date_lsr` rule. -/
def lsrMsg (fd : String) : String :=
  "Obtain latest LSR (Legal Search Report) from Panel Advocate before it expires; last LSR was taken on " ++ fd

/-- Action of the `date_internal_rating` rule. -/
def intRatMsg (fd : String) : String :=
  "Conduct Internal Rating Assessment as the last internal rating was done on " ++ fd

/-- Action of the `date_external_rating` rule. -/
def extRatMsg (fd : String) : String :=
  "Obtain External Rating Assessment as the last external rating was done on " ++ fd

/-- Action of the `date_tev_report` rule. -/
def tevMsg (fd : String) : String :=
  "Obtain latest TEV Report before it expires; last TEV was done on " ++ fd

/-- Action of the `date_stock_statement` rule (no date placeholder; the
argument is ignored as `replace` finds nothing). -/
def stockMsg (_fd : String) : String :=
  "Obtain certified Stock Statement from Customer for current month"

/-- Action of Rule 4 (bank credit report). -/
def r4Msg (fd : String) : String :=
  "Get CIR (Confidential Information Report) from Banks; the last credit report was obtained on " ++ fd

/-- Current-month action of Rule 7 (credit audit). -/
def r7CurMsg (fd : String) : String :=
  "Account is due for Credit Audit as the last audit was done on " ++ fd

/-- Future action of Rule 7 (credit audit). -/
def r7FutMsg (fd : String) : String :=
  "Account will be due for Credit Audit as the last audit was done on " ++ fd

/-- First character of a string, used to separate the rendered action
strings of different rules. -/
def headC (s : String) : Option Char := s.data.head?

/-- The current-month half of one standard-rule iteration: add the
rendered current action when the date is strictly before
`today - current_threshold`. -/
def stepCur (today d : Date) (curTh : RDelta) (curAct : String → String)
    (l : List String) : List String :=
  if dltB d (subDelta today curTh) then addU l (curAct (formatDate d)) else l

/-- The future half of one standard-rule iteration: add the rendered
future action when `today <= db_date + window < today + 3 months`. -/
def stepFut (today d : Date) (fw : RDelta) (fa : String → String)
    (l : List String) : List String :=
  if dleB today (addDelta d fw) && dltB (addDelta d fw) (addMonths today 3) then
    addU l (fa (formatDate d))
  else l

/-- One iteration of the `for rule in standard_rules` loop: skip when
the date is absent; otherwise apply the current check, and — when the
rule has both a future action and a future window (the source's
`if rule["future_action"] and rule["future_window_start"]`) — the
future check. -/
def processStd (today : Date) (dbd : Option Date) (curTh : RDelta)
    (futW : Option RDelta) (curAct : String → String)
    (futAct : Option (String → String))
    (acc : List String × List String) : List String × List String :=
  match dbd with
  | none => acc
  | some d =>
    match futAct, futW with
    | some fa, some fw =>
      (stepCur today d curTh curAct acc.1, stepFut today d fw fa acc.2)
    | _, _ => (stepCur today d curTh curAct acc.1, acc.2)

/-- Rule 4 (bank credit report): both dates must be present; the
current action needs `date_bcr < date_last_sanction` and
`date_last_sanction < today - 11 months`; the future action needs
`today <= date_bcr + 11 months < today + 3 months`. -/
def processR4 (today : Date) (cd : CompanyData)
    (acc : List String × List String) : List String × List String :=
  match cd.date_last_sanction, cd.date_of_bank_credit_report with
  | some dls, some dbcr =>
    ((if dltB dbcr dls && dltB dls (subDelta today (RDelta.months 11)) then
        addU acc.1 (r4Msg (formatDate dbcr))
      else acc.1),
     (if dleB today (addMonths dbcr 11) &&
          dltB (addMonths dbcr 11) (addMonths today 3) then
        addU acc.2 (r4Msg (formatDate dbcr))
      else acc.2))
  | _, _ => acc

/-- Rule 7, current condition: depends only on `date_of_last_audit`. -/
def processR7Cur (today : Date) (cd : CompanyData)
    (acc : List String × List String) : List String × List String :=
  match cd.date_of_last_audit with
  | none => acc
  | some dla =>
    if dltB dla (subDelta today (RDelta.months 11)) then
      (addU acc.1 (r7CurMsg (formatDate dla)), acc.2)
    else acc

/-- Rule 7, future condition: the trigger tests
`date_of_bank_credit_report + 11 months`, the message renders
`date_of_last_audit`; when the audit date is absent the branch only
logs a warning and adds nothing. -/
def processR7Fut (today : Date) (cd : CompanyData)
    (acc : List String × List String) : List String × List String :=
  match cd.date_of_bank_credit_report, cd.date_of_last_audit with
  | some dbcr, some dla =>
    let e := addMonths dbcr 11
    if dleB today e && dltB e (addMonths today 3) then
      (acc.1, addU acc.2 (r7FutMsg (formatDate dla)))
    else acc
  | _, _ => acc

/-- Embedding of `generate_recommendations`: the seven standard rules
in the source's order, then Rule 4, then Rule 7's current and future
conditions; returns (current_month, next_3_month). -/
def generate_recommendations (today : Date) (cd : CompanyData) :
    List String × List String :=
  let a1 := processStd today cd.date_valuation_report (RDelta.months 36)
    (some (RDelta.months 36)) valMsg (some valMsg) ([], [])
  let a2 := processStd today cd.date_last_sanction (RDelta.months 11)
    (some (RDelta.months 12)) sancCurMsg (some sancFutMsg) a1
  let a3 := processStd today cd.date_lsr (RDelta.months 36)
    (some (RDelta.months 36)) lsrMsg (some lsrMsg) a2
  let a4 := processStd today cd.date_internal_rating (RDelta.months 6)
    (some (RDelta.months 6)) intRatMsg (some intRatMsg) a3
  let a5 := processStd today cd.date_external_rating (RDelta.months 6)
    (some (RDelta.months 6)) extRatMsg (some extRatMsg) a4
  let a6 := processStd today cd.date_tev_report (RDelta.months 36)
    (some (RDelta.months 36)) tevMsg (some tevMsg) a5
  let a7 := processStd today cd.date_stock_statement (RDelta.days 10)
    none stockMsg none a6
  let a8 := processR4 today cd a7
  let a9 := processR7Cur today cd a8
  processR7Fut today cd a9

/-! Theorems. First, generic helpers about the classifier. -/

/-- Rounding an integer is the identity. -/
theorem roundHalfEven_intCast (n : ℤ) : roundHalfEven (n : ℚ) = n := by
  unfold roundHalfEven
  rw [Int.floor_intCast]
  norm_num

/-- Two-decimal rounding computed via the integer of hundredths. -/
theorem round2_eq (q : ℚ) (n : ℤ) (h : q * 100 = (n : ℚ)) :
    round2 q = (n : ℚ) / 100 := by
  unfold round2
  rw [h, roundHalfEven_intCast]

/-- Unfolding of `evaluate_attribute` once the rule is known. -/
theorem eval_rule (attr : String) (r : AttrRule)
    (h : lookupRule attribute_rules attr = some r) (x : ℚ) (y : String) :
    evaluate_attribute attr x y =
      if r.high x then renderAlert r.atype "High" attr (round2 x) y
      else if r.medium x then renderAlert r.atype "Medium" attr (round2 x) y
      else if r.low x then renderAlert r.atype "Low" attr (round2 x) y
      else unclassifiedMsg attr x := by
  unfold evaluate_attribute
  rw [h]

/-- The "current ratio" row of the table. -/
theorem lookup_current_ratio :
    lookupRule attribute_rules "current ratio" =
      some ⟨AttrType.R, fun x => decide (x < 1.0),
        fun x => decide (1.0 ≤ x ∧ x < 1.2),
        fun x => decide (1.2 ≤ x ∧ x ≤ 1.33)⟩ := rfl

/-- The "roce %" row of the table. -/
theorem lookup_roce :
    lookupRule attribute_rules "roce %" =
      some ⟨AttrType.P, fun x => decide (x < 12),
        fun x => decide (12 ≤ x ∧ x < 14),
        fun x => decide (10 ≤ x ∧ x ≤ 14)⟩ := rfl

/-- The "total debt to ebitda" row of the table. -/
theorem lookup_tdte :
    lookupRule attribute_rules "total debt to ebitda" =
      some ⟨AttrType.R, fun x => decide (x > 2.0),
        fun x => decide (2.0 ≤ x ∧ x ≤ 3.0),
        fun x => decide (3.0 ≤ x ∧ x ≤ 4.0)⟩ := rfl

/-- Computation of the rounded value at the claims' boundary inputs. -/
theorem round2_one : round2 (1 : ℚ) = 1 := by
  rw [round2_eq 1 100 (by norm_num)]; norm_num

/-- Rounding is the identity at 1.2 (two decimal places). -/
theorem round2_12 : round2 (1.2 : ℚ) = 1.2 := by
  rw [round2_eq 1.2 120 (by norm_num)]; norm_num

/-- Rounding is the identity at 1.33 (two decimal places). -/
theorem round2_133 : round2 (1.33 : ℚ) = 1.33 := by
  rw [round2_eq 1.33 133 (by norm_num)]; norm_num

/-- Rounding is the identity at 13. -/
theorem round2_13 : round2 (13 : ℚ) = 13 := by
  rw [round2_eq 13 1300 (by norm_num)]; norm_num

/-- Rounding is the identity at 3. -/
theorem round2_3 : round2 (3 : ℚ) = 3 := by
  rw [round2_eq 3 300 (by norm_num)]; norm_num

/-- C1: for every attribute in the rule table and every value the
classifier returns exactly one message and cannot fail; for
"current ratio" the value 1.0 falls in the Medium band, 1.2 and 1.33
fall in the Low band, and every value above 1.33 falls through to the
Unclassified message. -/
theorem C1_classifier_total_and_current_ratio_boundaries :
    (∀ name rule, (name, rule) ∈ attribute_rules → ∀ (x : ℚ) (y : String),
      ∃! m : String, evaluate_attribute name x y = m) ∧
    (∀ y, evaluate_attribute "current ratio" 1 y =
      renderAlert AttrType.R "Medium" "current ratio" 1 y) ∧
    (∀ y, evaluate_attribute "current ratio" 1.2 y =
      renderAlert AttrType.R "Low" "current ratio" 1.2 y) ∧
    (∀ y, evaluate_attribute "current ratio" 1.33 y =
      renderAlert AttrType.R "Low" "current ratio" 1.33 y) ∧
    (∀ (x : ℚ) (y : String), 1.33 < x →
      evaluate_attribute "current ratio" x y = unclassifiedMsg "current ratio" x) := by
  refine ⟨?_, ?_, ?_, ?_, ?_⟩
  · intro name rule _ x y
    exact ⟨evaluate_attribute name x y, rfl, fun m hm => hm.symm⟩
  · intro y
    rw [eval_rule _ _ lookup_current_ratio]
    simp only [decide_eq_true_eq]
    rw [if_neg (by norm_num), if_pos (by norm_num), round2_one]
  · intro y
    rw [eval_rule _ _ lookup_current_ratio]
    simp only [decide_eq_true_eq]
    rw [if_neg (by norm_num), if_neg (by norm_num), if_pos (by norm_num), round2_12]
  · intro y
    rw [eval_rule _ _ lookup_current_ratio]
    simp only [decide_eq_true_eq]
    rw [if_neg (by norm_num), if_neg (by norm_num), if_pos (by norm_num), round2_133]
  · intro x y hx
    have hx' : (133 : ℚ)/100 < x := by rw [show (133:ℚ)/100 = 1.33 by norm_num]; exact hx
    rw [eval_rule _ _ lookup_current_ratio]
    have h1 : ¬ (x < 1.0) := by rw [show (1.0:ℚ) = 1 by norm_num]; linarith
    have h2 : ¬ (1.0 ≤ x ∧ x < 1.2) := by
      rintro ⟨-, h⟩; rw [show (1.2:ℚ) = 6/5 by norm_num] at h; linarith
    have h3 : ¬ (1.2 ≤ x ∧ x ≤ 1.33) := by
      rintro ⟨-, h⟩; rw [show (1.33:ℚ) = 133/100 by norm_num] at h; linarith
    simp only [decide_eq_true_eq]
    rw [if_neg h1, if_neg h2, if_neg h3]

/-- Witness for C1 at concrete inputs: the first row of the table with
value 2 (above 1.33). -/
theorem C1_classifier_total_and_current_ratio_boundaries_witness :
    (∃! m : String, evaluate_attribute "current ratio" 2 "FY2024-25" = m) ∧
    evaluate_attribute "current ratio" 2 "FY2024-25" =
      unclassifiedMsg "current ratio" 2 :=
  ⟨C1_classifier_total_and_current_ratio_boundaries.1 "current ratio"
      ⟨AttrType.R, fun x => decide (x < 1.0),
        fun x => decide (1.0 ≤ x ∧ x < 1.2),
        fun x => decide (1.2 ≤ x ∧ x ≤ 1.33)⟩
      (List.mem_cons_self _ _) 2 "FY2024-25",
    C1_classifier_total_and_current_ratio_boundaries.2.2.2.2 2 "FY2024-25"
      (by norm_num)⟩

/-- C2 (refuting evaluation): the stored Medium band of "adjusted tnw"
is `10 <= x <= 7` and the stored Low band is `7 <= x <= 5`, both
unsatisfiable, so the claimed Medium value 8 and Low value 6 both fall
through to the Unclassified message. -/
theorem C2_adjusted_tnw_bands_empty :
    evaluate_attribute "adjusted tnw" 8 "FY2024-25" =
      unclassifiedMsg "adjusted tnw" 8 ∧
    evaluate_attribute "adjusted tnw" 6 "FY2024-25" =
      unclassifiedMsg "adjusted tnw" 6 ∧
    (∀ x : ℚ, ¬ (10 ≤ x ∧ x ≤ 7)) ∧
    (∀ x : ℚ, ¬ (7 ≤ x ∧ x ≤ 5)) := by
  refine ⟨rfl, rfl, ?_, ?_⟩
  · rintro x ⟨h1, h2⟩; linarith
  · rintro x ⟨h1, h2⟩; linarith

/-- Witness for C2 at the concrete value 8 (inside the claimed Medium
band [7,10]). -/
theorem C2_adjusted_tnw_bands_empty_witness :
    evaluate_attribute "adjusted tnw" 8 "FY2024-25" =
      unclassifiedMsg "adjusted tnw" 8 ∧
    ¬ ((10 : ℚ) ≤ 8 ∧ (8 : ℚ) ≤ 7) :=
  ⟨C2_adjusted_tnw_bands_empty.1, C2_adjusted_tnw_bands_empty.2.2.1 8⟩

/-- C9 (refuting evaluation): the claim's universal quantification over
attributes with overlapping Medium and Low bands fails. For
"total debt to ebitda" the value 3.0 lies in both the Medium band
(2.0 ≤ x ≤ 3.0) and the Low band (3.0 ≤ x ≤ 4.0), yet the High band
(x > 2.0) also holds and is tested first, so the classifier answers
High, not Medium. -/
theorem C9_overlap_medium_counterexample :
    ((2.0 : ℚ) ≤ 3 ∧ (3 : ℚ) ≤ 3.0) ∧ ((3.0 : ℚ) ≤ 3 ∧ (3 : ℚ) ≤ 4.0) ∧
    evaluate_attribute "total debt to ebitda" 3 "FY2024-25" =
      renderAlert AttrType.R "High" "total debt to ebitda" 3 "FY2024-25" ∧
    renderAlert AttrType.R "High" "total debt to ebitda" 3 "FY2024-25" ≠
      renderAlert AttrType.R "Medium" "total debt to ebitda" 3 "FY2024-25" := by
  refine ⟨⟨by norm_num, by norm_num⟩, ⟨by norm_num, by norm_num⟩, ?_, by decide⟩
  rw [eval_rule _ _ lookup_tdte]
  simp only [decide_eq_true_eq]
  rw [if_pos (by norm_num), round2_3]

/-- C9 (amended): bands are tested in the fixed order High, Medium,
Low and the first band that holds wins, so an overlapping Medium/Low
value is classified Medium exactly when the High band does not also
hold; on "roce %", whose High band x < 12 is disjoint from the overlap
(e.g. at 13, and in general on 12 ≤ x < 14 with 10 ≤ x ≤ 14), the
classifier answers Medium; and the classifier is deterministic. -/
theorem C9_overlap_first_band_medium :
    (∀ (attr : String) (r : AttrRule) (x : ℚ) (y : String),
      lookupRule attribute_rules attr = some r →
      r.high x = false → r.medium x = true →
      evaluate_attribute attr x y =
        renderAlert r.atype "Medium" attr (round2 x) y) ∧
    (∀ y, evaluate_attribute "roce %" 13 y =
      renderAlert AttrType.P "Medium" "roce %" 13 y) ∧
    (∀ (x : ℚ) (y : String), 12 ≤ x ∧ x < 14 → 10 ≤ x ∧ x ≤ 14 →
      evaluate_attribute "roce %" x y =
        renderAlert AttrType.P "Medium" "roce %" (round2 x) y) ∧
    (∀ (a₁ a₂ : String) (v₁ v₂ : ℚ) (y₁ y₂ : String),
      a₁ = a₂ → v₁ = v₂ → y₁ = y₂ →
      evaluate_attribute a₁ v₁ y₁ = evaluate_attribute a₂ v₂ y₂) := by
  refine ⟨?_, ?_, ?_, ?_⟩
  · intro attr r x y h hhigh hmed
    rw [eval_rule _ _ h, hhigh, hmed]
    simp
  · intro y
    rw [eval_rule _ _ lookup_roce]
    simp only [decide_eq_true_eq]
    rw [if_neg (by norm_num), if_pos (by norm_num), round2_13]
  · rintro x y ⟨h12, h14⟩ -
    rw [eval_rule _ _ lookup_roce]
    simp only [decide_eq_true_eq]
    rw [if_neg (by linarith), if_pos ⟨h12, h14⟩]
  · rintro a₁ a₂ v₁ v₂ y₁ y₂ rfl rfl rfl
    rfl

/-- Witness for C9 (amended) at the concrete overlap value 13 of
"roce %", where the High band fails. -/
theorem C9_overlap_first_band_medium_witness :
    evaluate_attribute "roce %" 13 "FY2024-25" =
      renderAlert AttrType.P "Medium" "roce %" (round2 13) "FY2024-25" ∧
    evaluate_attribute "roce %" 13 "FY2024-25" =
      evaluate_attribute "roce %" 13 "FY2024-25" :=
  ⟨C9_overlap_first_band_medium.1 "roce %"
      ⟨AttrType.P, fun x => decide (x < 12),
        fun x => decide (12 ≤ x ∧ x < 14),
        fun x => decide (10 ≤ x ∧ x ≤ 14)⟩ 13 "FY2024-25"
      lookup_roce (by decide) (by decide),
    C9_overlap_first_band_medium.2.2.2 "roce %" "roce %" 13 13
      "FY2024-25" "FY2024-25" rfl rfl rfl⟩

/-- C6: the target fiscal-year-end date is a total function of the
system date; months April-December yield March 31 of the current year
and months January-March yield March 31 of the previous year. -/
theorem C6_target_fiscal_year_end (y m : Int) :
    (4 ≤ m ∧ m ≤ 12 → calculate_target_date y m = "31.03." ++ toString y) ∧
    (1 ≤ m ∧ m ≤ 3 → calculate_target_date y m = "31.03." ++ toString (y - 1)) := by
  constructor
  · rintro ⟨h, -⟩
    rw [calculate_target_date, if_pos (by omega)]
  · rintro ⟨-, h⟩
    rw [calculate_target_date, if_neg (by omega)]

/-- Witness for C6: 15 February 2026 and 15 April 2026. -/
theorem C6_target_fiscal_year_end_witness :
    calculate_target_date 2026 4 = "31.03." ++ toString (2026 : Int) ∧
    calculate_target_date 2026 2 = "31.03." ++ toString (2026 - 1 : Int) :=
  ⟨(C6_target_fiscal_year_end 2026 4).1 (by norm_num),
    (C6_target_fiscal_year_end 2026 2).2 (by norm_num)⟩

/-- Indexing of an element-wise column operation. -/
theorem getD_zipWith (f : ℚ → ℚ → ℚ) :
    ∀ (l₁ l₂ : List ℚ) (i : Nat), i < l₁.length → i < l₂.length →
      (List.zipWith f l₁ l₂).getD i 0 = f (l₁.getD i 0) (l₂.getD i 0)
  | _ :: _, _ :: _, 0, _, _ => rfl
  | _ :: l₁, _ :: l₂, i + 1, h₁, h₂ => by
    simpa using getD_zipWith f l₁ l₂ i (by simpa using h₁) (by simpa using h₂)
  | [], _, _, h₁, _ => absurd h₁ (by simp)
  | _ :: _, [], _, _, h₂ => absurd h₂ (by simp)

/-- C7: on a well-formed input (all required P&L columns of equal
length n), each period row satisfies Total Revenue = Gross Sales Local
+ Gross Sales Exports, COGS = Opening SIP + Raw Materials Imported +
Raw Materials Indigenous + Other Spares + Power & Fuel + Direct Labour
+ Repairs & Main + Other Operating Exp + Depreciation − Closing SIP,
EBIT = Total Revenue − COGS − SG&A Expenses, and EBITDA = EBIT +
Depreciation. -/
theorem C7_pl_statement_formulas (p : PLInput) (n i : Nat)
    (hg1 : p.grossSalesLocal.length = n) (hg2 : p.grossSalesExports.length = n)
    (ho : p.openingSIP.length = n) (hr1 : p.rawMaterialsImported.length = n)
    (hr2 : p.rawMaterialsIndigeneous.length = n) (hs : p.otherSpares.length = n)
    (hp : p.powerAndFuel.length = n) (hd : p.directLabour.length = n)
    (hm : p.repairsAndMain.length = n) (he : p.otherOperatingExp.length = n)
    (hdep : p.depreciation.length = n) (hc : p.closingSIP.length = n)
    (hsga : p.sgaExpenses.length = n) (hi : i < n) :
    (totalRevenue p).getD i 0 =
      p.grossSalesLocal.getD i 0 + p.grossSalesExports.getD i 0 ∧
    (cogsCol p).getD i 0 =
      p.openingSIP.getD i 0 + p.rawMaterialsImported.getD i 0 +
      p.rawMaterialsIndigeneous.getD i 0 + p.otherSpares.getD i 0 +
      p.powerAndFuel.getD i 0 + p.directLabour.getD i 0 +
      p.repairsAndMain.getD i 0 + p.otherOperatingExp.getD i 0 +
      p.depreciation.getD i 0 - p.closingSIP.getD i 0 ∧
    (ebitCol p).getD i 0 =
      (totalRevenue p).getD i 0 - (cogsCol p).getD i 0 - p.sgaExpenses.getD i 0 ∧
    (ebitdaCol p).getD i 0 = (ebitCol p).getD i 0 + p.depreciation.getD i 0 := by
  refine ⟨?_, ?_, ?_, ?_⟩ <;>
    simp only [totalRevenue, cogsCol, ebitCol, ebitdaCol, operatingExpenses] <;>
    simp [getD_zipWith, List.length_zipWith, lt_min_iff, hg1, hg2, ho, hr1,
      hr2, hs, hp, hd, hm, he, hdep, hc, hsga, hi]

/-- Witness for C7: a one-period input with known constants. -/
theorem C7_pl_statement_formulas_witness :
    ([(3 : ℚ)].length = 1 ∧ (0 : Nat) < 1) ∧
    ((totalRevenue ⟨[3], [4], [5], [6], [7], [8], [9], [10], [11], [12], [13], [14], [15]⟩).getD 0 0 =
      ([(3 : ℚ)]).getD 0 0 + ([(4 : ℚ)]).getD 0 0 ∧
    (cogsCol ⟨[3], [4], [5], [6], [7], [8], [9], [10], [11], [12], [13], [14], [15]⟩).getD 0 0 =
      ([(5 : ℚ)]).getD 0 0 + ([(6 : ℚ)]).getD 0 0 + ([(7 : ℚ)]).getD 0 0 +
      ([(8 : ℚ)]).getD 0 0 + ([(9 : ℚ)]).getD 0 0 + ([(10 : ℚ)]).getD 0 0 +
      ([(11 : ℚ)]).getD 0 0 + ([(12 : ℚ)]).getD 0 0 + ([(13 : ℚ)]).getD 0 0 -
      ([(14 : ℚ)]).getD 0 0 ∧
    (ebitCol ⟨[3], [4], [5], [6], [7], [8], [9], [10], [11], [12], [13], [14], [15]⟩).getD 0 0 =
      (totalRevenue ⟨[3], [4], [5], [6], [7], [8], [9], [10], [11], [12], [13], [14], [15]⟩).getD 0 0 -
      (cogsCol ⟨[3], [4], [5], [6], [7], [8], [9], [10], [11], [12], [13], [14], [15]⟩).getD 0 0 -
      ([(15 : ℚ)]).getD 0 0 ∧
    (ebitdaCol ⟨[3], [4], [5], [6], [7], [8], [9], [10], [11], [12], [13], [14], [15]⟩).getD 0 0 =
      (ebitCol ⟨[3], [4], [5], [6], [7], [8], [9], [10], [11], [12], [13], [14], [15]⟩).getD 0 0 +
      ([(13 : ℚ)]).getD 0 0) :=
  ⟨⟨rfl, Nat.zero_lt_one⟩,
    C7_pl_statement_formulas ⟨[3], [4], [5], [6], [7], [8], [9], [10], [11], [12], [13], [14], [15]⟩
      1 0 rfl rfl rfl rfl rfl rfl rfl rfl rfl rfl rfl rfl rfl Nat.zero_lt_one⟩

/-- The report sort key is total. -/
theorem reportKeyLe_total (a b : Report) :
    reportKeyLe a b = true ∨ reportKeyLe b a = true := by
  unfold reportKeyLe
  rcases le_total a.report_name b.report_name with h | h <;>
    cases hta : a.rtype != "cumulative" <;>
    cases htb : b.rtype != "cumulative" <;>
    simp [hta, htb, h]

/-- The report sort key is transitive. -/
theorem reportKeyLe_trans {a b c : Report} (h₁ : reportKeyLe a b = true)
    (h₂ : reportKeyLe b c = true) : reportKeyLe a c = true := by
  unfold reportKeyLe at h₁ h₂ ⊢
  cases hta : a.rtype != "cumulative" <;> cases htb : b.rtype != "cumulative" <;>
    cases htc : c.rtype != "cumulative" <;>
    simp_all <;>
    exact le_trans h₁ h₂

/-- Inserting keeps every element. -/
theorem mem_insertReport {a x : Report} :
    ∀ {l : List Report}, x ∈ insertReport a l ↔ x = a ∨ x ∈ l := by
  intro l
  induction l with
  | nil => simp [insertReport]
  | cons b bs ih =>
    by_cases h : reportKeyLe a b = true
    · simp [insertReport, h]
    · simp only [insertReport, if_neg h, List.mem_cons, ih]
      tauto

/-- Insertion preserves sortedness by the key. -/
theorem pairwise_insertReport (a : Report) :
    ∀ (l : List Report), l.Pairwise (fun x y => reportKeyLe x y = true) →
      (insertReport a l).Pairwise (fun x y => reportKeyLe x y = true) := by
  intro l
  induction l with
  | nil => simp [insertReport]
  | cons b bs ih =>
    intro hp
    rw [List.pairwise_cons] at hp
    by_cases h : reportKeyLe a b = true
    · rw [insertReport, if_pos h]
      refine List.Pairwise.cons ?_ (List.Pairwise.cons hp.1 hp.2)
      intro x hx
      rcases List.mem_cons.mp hx with rfl | hx
      · exact h
      · exact reportKeyLe_trans h (hp.1 x hx)
    · rw [insertReport, if_neg h]
      refine List.Pairwise.cons ?_ (ih hp.2)
      intro x hx
      rcases mem_insertReport.mp hx with rfl | hx
      · rcases reportKeyLe_total x b with hba | hba
        · exact absurd hba h
        · exact hba
      · exact hp.1 x hx

/-- The embedded sort is sorted by the Python key order. -/
theorem sorted_sortReports :
    ∀ (l : List Report),
      (sortReports l).Pairwise (fun x y => reportKeyLe x y = true) := by
  intro l
  induction l with
  | nil => exact List.Pairwise.nil
  | cons a as ih => exact pairwise_insertReport a _ ih

/-- C8 (refuting evaluation): the sort key
`(x['type'] != 'cumulative', x['report_name'])` places the cumulative
entry first, not last: on a list of one individual and one cumulative
report, the sorted result starts with the cumulative entry and its
final element is the individual one. -/
theorem C8_cumulative_last_counterexample :
    sortReports
        [⟨"Balance Sheet", "individual", "c1"⟩,
         ⟨"Cumulative Report", "cumulative", "c2"⟩] =
      [⟨"Cumulative Report", "cumulative", "c2"⟩,
       ⟨"Balance Sheet", "individual", "c1"⟩] ∧
    (⟨"Cumulative Report", "cumulative", "c2"⟩ : Report).rtype = "cumulative" ∧
    (sortReports
        [⟨"Balance Sheet", "individual", "c1"⟩,
         ⟨"Cumulative Report", "cumulative", "c2"⟩]).getLast? =
      some ⟨"Balance Sheet", "individual", "c1"⟩ ∧
    (⟨"Balance Sheet", "individual", "c1"⟩ : Report).rtype ≠ "cumulative" := by
  refine ⟨rfl, rfl, rfl, ?_⟩
  decide

/-- C8 (amended): in the sorted result every cumulative entry precedes
every individual entry (cumulative first), and entries of equal kind
are in alphabetical order of report name. -/
theorem C8_cumulative_first_sorted (l : List Report) :
    (sortReports l).Pairwise (fun a b =>
      (b.rtype = "cumulative" → a.rtype = "cumulative") ∧
      (a.rtype ≠ "cumulative" → b.rtype ≠ "cumulative" →
        a.report_name ≤ b.report_name)) := by
  refine (sorted_sortReports l).imp ?_
  intro a b h
  unfold reportKeyLe at h
  constructor
  · intro hb
    by_contra ha
    simp [hb, ha, bne_iff_ne] at h
  · intro ha hb
    have hta : (a.rtype != "cumulative") = true := by simp [bne_iff_ne, ha]
    have htb : (b.rtype != "cumulative") = true := by simp [bne_iff_ne, hb]
    rw [hta, htb] at h
    simpa using h

/-- Witness for C8 (amended) on the two-report example list. -/
theorem C8_cumulative_first_sorted_witness :
    (sortReports
        [⟨"Balance Sheet", "individual", "c1"⟩,
         ⟨"Cumulative Report", "cumulative", "c2"⟩]).Pairwise (fun a b =>
      (b.rtype = "cumulative" → a.rtype = "cumulative") ∧
      (a.rtype ≠ "cumulative" → b.rtype ≠ "cumulative" →
        a.report_name ≤ b.report_name)) :=
  C8_cumulative_first_sorted
    [⟨"Balance Sheet", "individual", "c1"⟩,
     ⟨"Cumulative Report", "cumulative", "c2"⟩]

/-- The substitution only outputs underscores and untouched clean
characters. -/
theorem squashBad_not_bad : ∀ (l : List Nat), ∀ c ∈ squashBad l, pyBad c = false := by
  intro l
  induction l using squashBad.induct with
  | case1 => simp [squashBad]
  | case2 c hc =>
    simp only [squashBad, if_pos hc, List.mem_singleton]
    rintro x rfl
    decide
  | case3 c hc =>
    simp only [squashBad, if_neg hc, List.mem_singleton]
    rintro x rfl
    simpa using hc
  | case4 c d cs hc hd ih => simpa [squashBad, hc, hd] using ih
  | case5 c d cs hc hd ih =>
    simp only [squashBad, if_pos hc, if_neg hd, List.mem_cons]
    rintro x (rfl | hx)
    · rfl
    · exact ih x hx
  | case6 c d cs hc ih =>
    simp only [squashBad, if_neg hc, List.mem_cons]
    rintro x (rfl | hx)
    · simpa using hc
    · exact ih x hx

/-- The substitution fixes strings without hyphen/comma/space. -/
theorem squashBad_id : ∀ (l : List Nat), (∀ c ∈ l, pyBad c = false) →
    squashBad l = l := by
  intro l
  induction l using squashBad.induct with
  | case1 => intro _; rfl
  | case2 c hc => intro h; exact absurd (h c (by simp)) (by simp [hc])
  | case3 c hc => intro _; simp [squashBad, hc]
  | case4 c d cs hc hd ih => intro h; exact absurd (h c (by simp)) (by simp [hc])
  | case5 c d cs hc hd ih => intro h; exact absurd (h c (by simp)) (by simp [hc])
  | case6 c d cs hc ih =>
    intro h
    simp only [squashBad, if_neg hc]
    rw [ih fun x hx => h x (List.mem_cons_of_mem c hx)]

/-- ASCII lower-casing is idempotent on a code point. -/
theorem pyLower_idem (c : Nat) : pyLower (pyLower c) = pyLower c := by
  by_cases h65 : 65 ≤ c ∧ c ≤ 90
  · have h1 : pyLower c = c + 32 := by rw [pyLower, if_pos h65]
    rw [h1, pyLower, if_neg (by omega)]
  · have h1 : pyLower c = c := by rw [pyLower, if_neg h65]
    rw [h1, h1]

/-- Lower-casing maps clean characters to clean characters. -/
theorem pyLower_not_bad {c : Nat} (h : pyBad c = false) :
    pyBad (pyLower c) = false := by
  by_cases h65 : 65 ≤ c ∧ c ≤ 90
  · rw [pyLower, if_pos h65]
    simp only [pyBad, Bool.or_eq_false_iff, beq_eq_false_iff_ne, ne_eq]
    omega
  · rwa [pyLower, if_neg h65]

/-- Lower-casing does not change whitespace-ness. -/
theorem pyIsSpace_pyLower (c : Nat) : pyIsSpace (pyLower c) = pyIsSpace c := by
  by_cases h65 : 65 ≤ c ∧ c ≤ 90
  · have hl : pyIsSpace (c + 32) = false := by
      simp only [pyIsSpace, Bool.or_eq_false_iff, beq_eq_false_iff_ne, ne_eq]
      omega
    have hr : pyIsSpace c = false := by
      simp only [pyIsSpace, Bool.or_eq_false_iff, beq_eq_false_iff_ne, ne_eq]
      omega
    rw [pyLower, if_pos h65, hl, hr]
  · rw [pyLower, if_neg h65]

/-- `dropWhile` on whitespace commutes with lower-casing. -/
theorem dropWhile_map_pyLower : ∀ (l : List Nat),
    List.dropWhile pyIsSpace (l.map pyLower) =
      (List.dropWhile pyIsSpace l).map pyLower := by
  intro l
  induction l with
  | nil => rfl
  | cons a l ih =>
    simp only [List.map_cons, List.dropWhile_cons, pyIsSpace_pyLower]
    split
    · exact ih
    · rfl

/-- Front-stripping commutes with lower-casing. -/
theorem frontStrip_map_pyLower (l : List Nat) :
    frontStrip (l.map pyLower) = (frontStrip l).map pyLower :=
  dropWhile_map_pyLower l

/-- Back-stripping commutes with lower-casing. -/
theorem backStrip_map_pyLower (l : List Nat) :
    backStrip (l.map pyLower) = (backStrip l).map pyLower := by
  unfold backStrip
  rw [← List.map_reverse, dropWhile_map_pyLower, List.map_reverse]

/-- Stripping commutes with lower-casing. -/
theorem pyStrip_map_pyLower (l : List Nat) :
    pyStrip (l.map pyLower) = (pyStrip l).map pyLower := by
  unfold pyStrip
  rw [frontStrip_map_pyLower, backStrip_map_pyLower]

/-- `dropWhile` is idempotent. -/
theorem dropWhile_idem (p : Nat → Bool) : ∀ (l : List Nat),
    List.dropWhile p (List.dropWhile p l) = List.dropWhile p l := by
  intro l
  induction l with
  | nil => rfl
  | cons a l ih =>
    rw [List.dropWhile_cons]
    split
    · exact ih
    · rw [List.dropWhile_cons]
      simp_all

/-- The head surviving a `dropWhile` fails the predicate. -/
theorem head_dropWhile_false (p : Nat → Bool) : ∀ (l : List Nat) (c : Nat),
    (List.dropWhile p l).head? = some c → p c = false := by
  intro l
  induction l with
  | nil => intro c h; simp at h
  | cons a l ih =>
    intro c h
    rw [List.dropWhile_cons] at h
    by_cases hp : p a = true
    · rw [if_pos hp] at h
      exact ih c h
    · rw [if_neg hp] at h
      simp only [List.head?_cons, Option.some.injEq] at h
      subst h
      simpa using hp

/-- A `dropWhile` from an already stripped front is the identity. -/
theorem frontStrip_eq_self (l : List Nat)
    (h : ∀ c, l.head? = some c → pyIsSpace c = false) : frontStrip l = l := by
  cases l with
  | nil => rfl
  | cons a l =>
    unfold frontStrip
    rw [List.dropWhile_cons, if_neg (by simp [h a rfl])]

/-- Back-stripping is idempotent. -/
theorem backStrip_idem (l : List Nat) : backStrip (backStrip l) = backStrip l := by
  unfold backStrip
  rw [List.reverse_reverse, dropWhile_idem]

/-- Back-stripping shortens from the right only: the result is a prefix. -/
theorem backStrip_isPre (l : List Nat) : ∃ t, l = backStrip l ++ t := by
  obtain ⟨t, ht⟩ := @List.dropWhile_suffix _ l.reverse pyIsSpace
  have h2 := congrArg List.reverse ht
  rw [List.reverse_append, List.reverse_reverse] at h2
  exact ⟨t.reverse, by rw [backStrip]; exact h2.symm⟩

/-- Stripping is idempotent. -/
theorem pyStrip_idem (l : List Nat) : pyStrip (pyStrip l) = pyStrip l := by
  unfold pyStrip
  have h1 : frontStrip (backStrip (frontStrip l)) = backStrip (frontStrip l) := by
    apply frontStrip_eq_self
    intro c hc
    obtain ⟨t, ht⟩ := backStrip_isPre (frontStrip l)
    cases hb : backStrip (frontStrip l) with
    | nil => rw [hb] at hc; simp at hc
    | cons x xs =>
      rw [hb] at hc ht
      simp only [List.head?_cons, Option.some.injEq] at hc
      subst hc
      have hhead : (frontStrip l).head? = some x := by
        rw [ht]; rfl
      exact head_dropWhile_false pyIsSpace l x hhead
  rw [h1, backStrip_idem]

/-- Every character of the stripped string is a character of the
original. -/
theorem mem_pyStrip {c : Nat} {l : List Nat} (h : c ∈ pyStrip l) : c ∈ l := by
  unfold pyStrip backStrip frontStrip at h
  have h1 : c ∈ List.dropWhile pyIsSpace (List.dropWhile pyIsSpace l).reverse := by
    simpa using h
  have h2 : c ∈ (List.dropWhile pyIsSpace l).reverse :=
    List.Sublist.mem h1 (List.dropWhile_sublist pyIsSpace)
  have h3 : c ∈ List.dropWhile pyIsSpace l := by simpa using h2
  exact List.Sublist.mem h3 (List.dropWhile_sublist pyIsSpace)

/-- Every character of the sanitized output is a lower-cased
substitution output. -/
theorem mem_sanitize {c : Nat} {s : List Nat} (h : c ∈ sanitize_filename s) :
    ∃ a ∈ squashBad s, c = pyLower a := by
  unfold sanitize_filename at h
  split at h
  · simp at h
  · obtain ⟨a, ha, rfl⟩ := List.mem_map.mp (mem_pyStrip h)
    exact ⟨a, ha, rfl⟩

/-- C10: `sanitize_filename` is idempotent, its output contains no
space, comma or hyphen, and the output is fixed by lower-casing. -/
theorem C10_sanitize_filename_idempotent (s : List Nat) :
    sanitize_filename (sanitize_filename s) = sanitize_filename s ∧
    (∀ c ∈ sanitize_filename s, pyBad c = false) ∧
    (sanitize_filename s).map pyLower = sanitize_filename s := by
  have heq : ∀ (t : List Nat), t ≠ [] →
      sanitize_filename t = pyStrip ((squashBad t).map pyLower) := by
    intro t ht
    unfold sanitize_filename
    rw [if_neg ht]
  have hclean : ∀ c ∈ sanitize_filename s, pyBad c = false := by
    intro c hc
    obtain ⟨a, ha, rfl⟩ := mem_sanitize hc
    exact pyLower_not_bad (squashBad_not_bad s a ha)
  have hlower : (sanitize_filename s).map pyLower = sanitize_filename s := by
    by_cases hs : s = []
    · rw [hs]; rfl
    · rw [heq s hs, ← pyStrip_map_pyLower, List.map_map,
        show pyLower ∘ pyLower = pyLower from funext pyLower_idem]
  refine ⟨?_, hclean, hlower⟩
  by_cases hs : s = []
  · rw [hs]; rfl
  · by_cases hc : sanitize_filename s = []
    · rw [hc]; rfl
    · rw [heq _ hc, squashBad_id _ hclean, hlower, heq s hs, pyStrip_idem]

/-- Witness for C10 at the concrete input "A b-C," (code points
65 32 98 45 67 44): the output is "a_b_c_" and 97 is one of its clean
characters. -/
theorem C10_sanitize_filename_idempotent_witness :
    sanitize_filename (sanitize_filename [65, 32, 98, 45, 67, 44]) =
      sanitize_filename [65, 32, 98, 45, 67, 44] ∧
    (97 ∈ sanitize_filename [65, 32, 98, 45, 67, 44] ∧ pyBad 97 = false) ∧
    (sanitize_filename [65, 32, 98, 45, 67, 44]).map pyLower =
      sanitize_filename [65, 32, 98, 45, 67, 44] :=
  ⟨(C10_sanitize_filename_idempotent [65, 32, 98, 45, 67, 44]).1,
    ⟨by decide,
      (C10_sanitize_filename_idempotent [65, 32, 98, 45, 67, 44]).2.1 97 (by decide)⟩,
    (C10_sanitize_filename_idempotent [65, 32, 98, 45, 67, 44]).2.2⟩

/-- `isOk` on a success. -/
theorem except_isOk_ok {α : Type} (a : α) :
    (Except.ok a : Except String α).isOk = true := rfl

/-- A succeeding `bind` has a succeeding head. -/
theorem isOk_bind {α β : Type} (x : Except String α) (f : α → Except String β)
    (h : (x >>= f).isOk = true) : ∃ a, x = Except.ok a ∧ (f a).isOk = true := by
  cases x with
  | error e => exact absurd h (by simp [Bind.bind, Except.bind, Except.isOk, Except.toBool])
  | ok a => exact ⟨a, rfl, h⟩

/-- C5 (refuting evaluation): on a record missing the headline source
field "Current Ratio" (a field the derivation maps into the alert
record), `create_alerts_data` does not raise: it returns a record, and
the missing headline value is simply `None`. -/
theorem C5_missing_headline_field_no_exception :
    lookupA cexAlertsData "Current Ratio" = none ∧
    (create_alerts_data cexAlertsData).isOk = true ∧
    getVal cexAlertsData "Current Ratio" = none := by
  exact ⟨rfl, rfl, rfl⟩

/-- C5 (amended): only the source fields read unguardedly by the three
derived ratios abort the derivation: if any of those keys is absent
from the record, `create_alerts_data` raises (returns an error) and
emits no alert record. -/
theorem C5_missing_derived_key_raises (data : List (String × List ℚ))
    (k : String) (hk : k ∈ requiredKeys) (hmiss : lookupA data k = none) :
    (create_alerts_data data).isOk = false := by
  by_contra hok0
  rw [Bool.not_eq_false] at hok0
  unfold create_alerts_data at hok0
  obtain ⟨a01, h01, hok⟩ := isOk_bind _ _ hok0
  obtain ⟨a02, h02, hok⟩ := isOk_bind _ _ hok
  obtain ⟨a03, h03, hok⟩ := isOk_bind _ _ hok
  obtain ⟨a04, h04, hok⟩ := isOk_bind _ _ hok
  obtain ⟨a05, h05, hok⟩ := isOk_bind _ _ hok
  obtain ⟨a06, h06, hok⟩ := isOk_bind _ _ hok
  obtain ⟨a07, h07, hok⟩ := isOk_bind _ _ hok
  obtain ⟨a08, h08, hok⟩ := isOk_bind _ _ hok
  obtain ⟨a09, h09, hok⟩ := isOk_bind _ _ hok
  obtain ⟨a10, h10, hok⟩ := isOk_bind _ _ hok
  obtain ⟨a11, h11, hok⟩ := isOk_bind _ _ hok
  obtain ⟨a12, h12, hok⟩ := isOk_bind _ _ hok
  obtain ⟨a13, h13, hok⟩ := isOk_bind _ _ hok
  obtain ⟨a14, h14, hok⟩ := isOk_bind _ _ hok
  obtain ⟨a15, h15, hok⟩ := isOk_bind _ _ hok
  obtain ⟨a16, h16, hok⟩ := isOk_bind _ _ hok
  obtain ⟨a17, h17, hok⟩ := isOk_bind _ _ hok
  obtain ⟨a18, h18, hok⟩ := isOk_bind _ _ hok
  obtain ⟨a19, h19, hok⟩ := isOk_bind _ _ hok
  obtain ⟨a20, h20, hok⟩ := isOk_bind _ _ hok
  obtain ⟨a21, h21, hok⟩ := isOk_bind _ _ hok
  obtain ⟨a22, h22, hok⟩ := isOk_bind _ _ hok
  obtain ⟨a23, h23, hok⟩ := isOk_bind _ _ hok
  have hreq : (getReq data k).isOk = true := by
    fin_cases hk <;>
      first
      | (rw [h01]; exact except_isOk_ok _)
      | (rw [h02]; exact except_isOk_ok _)
      | (rw [h03]; exact except_isOk_ok _)
      | (rw [h04]; exact except_isOk_ok _)
      | (rw [h05]; exact except_isOk_ok _)
      | (rw [h06]; exact except_isOk_ok _)
      | (rw [h07]; exact except_isOk_ok _)
      | (rw [h09]; exact except_isOk_ok _)
      | (rw [h10]; exact except_isOk_ok _)
      | (rw [h11]; exact except_isOk_ok _)
      | (rw [h12]; exact except_isOk_ok _)
      | (rw [h13]; exact except_isOk_ok _)
      | (rw [h14]; exact except_isOk_ok _)
      | (rw [h15]; exact except_isOk_ok _)
      | (rw [h16]; exact except_isOk_ok _)
      | (rw [h17]; exact except_isOk_ok _)
      | (rw [h18]; exact except_isOk_ok _)
      | (rw [h19]; exact except_isOk_ok _)
      | (rw [h20]; exact except_isOk_ok _)
      | (rw [h21]; exact except_isOk_ok _)
      | (rw [h22]; exact except_isOk_ok _)
      | (rw [h23]; exact except_isOk_ok _)
  rw [getReq, hmiss] at hreq
  exact absurd hreq (by simp [Except.isOk, Except.toBool])

/-- Witness for C5 (amended) at a concrete record missing
"Cash Accruals". -/
theorem C5_missing_derived_key_raises_witness :
    "Cash Accruals" ∈ requiredKeys ∧
    lookupA cexMissingCashAccruals "Cash Accruals" = none ∧
    (create_alerts_data cexMissingCashAccruals).isOk = false :=
  ⟨by decide, rfl,
    C5_missing_derived_key_raises cexMissingCashAccruals "Cash Accruals"
      (by decide) rfl⟩

/-- The head of an append is the head of the (non-empty) left part. -/
theorem headC_append (p x : String) (c : Char) (hp : headC p = some c) :
    headC (p ++ x) = some c := by
  unfold headC at hp ⊢
  have hdata : (p ++ x).data = p.data ++ x.data := rfl
  rw [hdata]
  cases hd : p.data with
  | nil => rw [hd] at hp; exact absurd hp (by simp)
  | cons a t =>
    rw [hd] at hp
    simpa using hp

/-- Strings with different first characters differ. -/
theorem ne_of_headC {s t : String} (h : headC s ≠ headC t) : s ≠ t :=
  fun he => h (by rw [he])

/-- Heads of the rendered actions. -/
theorem headC_valMsg (fd : String) : headC (valMsg fd) = some 'O' :=
  headC_append _ _ _ rfl

/-- Head of the sanction current action. -/
theorem headC_sancCurMsg (fd : String) : headC (sancCurMsg fd) = some 'T' :=
  headC_append _ _ _ rfl

/-- Head of the sanction future action. -/
theorem headC_sancFutMsg (fd : String) : headC (sancFutMsg fd) = some 'T' :=
  headC_append _ _ _ rfl

/-- Head of the LSR action. -/
theorem headC_lsrMsg (fd : String) : headC (lsrMsg fd) = some 'O' :=
  headC_append _ _ _ rfl

/-- Head of the internal-rating action. -/
theorem headC_intRatMsg (fd : String) : headC (intRatMsg fd) = some 'C' :=
  headC_append _ _ _ rfl

/-- Head of the external-rating action. -/
theorem headC_extRatMsg (fd : String) : headC (extRatMsg fd) = some 'O' :=
  headC_append _ _ _ rfl

/-- Head of the TEV action. -/
theorem headC_tevMsg (fd : String) : headC (tevMsg fd) = some 'O' :=
  headC_append _ _ _ rfl

/-- Head of the stock-statement action. -/
theorem headC_stockMsg (fd : String) : headC (stockMsg fd) = some 'O' := rfl

/-- Head of the Rule 4 action. -/
theorem headC_r4Msg (fd : String) : headC (r4Msg fd) = some 'G' :=
  headC_append _ _ _ rfl

/-- Head of the Rule 7 current action. -/
theorem headC_r7CurMsg (fd : String) : headC (r7CurMsg fd) = some 'A' :=
  headC_append _ _ _ rfl

/-- Head of the Rule 7 future action. -/
theorem headC_r7FutMsg (fd : String) : headC (r7FutMsg fd) = some 'A' :=
  headC_append _ _ _ rfl

/-- Membership in an append-if-absent step. -/
theorem mem_addU {a s : String} {l : List String} :
    a ∈ addU l s ↔ a ∈ l ∨ a = s := by
  by_cases h : s ∈ l
  · rw [addU, if_pos h]
    exact ⟨Or.inl, fun hh => hh.elim id fun he => he ▸ h⟩
  · rw [addU, if_neg h]
    simp

/-- The appended element is a member. -/
theorem mem_addU_self {s : String} {l : List String} : s ∈ addU l s :=
  mem_addU.mpr (Or.inr rfl)

/-- Previous members stay members. -/
theorem mem_addU_of {a s : String} {l : List String} (h : a ∈ l) :
    a ∈ addU l s :=
  mem_addU.mpr (Or.inl h)

/-- Append-if-absent preserves distinctness. -/
theorem nodup_addU {s : String} {l : List String} (hn : l.Nodup) :
    (addU l s).Nodup := by
  by_cases h : s ∈ l
  · rwa [addU, if_pos h]
  · rw [addU, if_neg h, List.nodup_append]
    refine ⟨hn, List.nodup_singleton s, ?_⟩
    intro a ha hb
    rw [List.mem_singleton] at hb
    subst hb
    exact h ha

/-- Month arithmetic shifts the month index exactly. -/
theorem mIdx_addMonths (d : Date) (n : Int) :
    mIdx (addMonths d n) = mIdx d + n := by
  have h : 12 * ((mIdx d + n).ediv 12) + (mIdx d + n).emod 12 = mIdx d + n :=
    Int.ediv_add_emod (mIdx d + n) 12
  show ((mIdx d + n).ediv 12) * 12 + ((mIdx d + n).emod 12 + 1) - 1 = mIdx d + n
  omega

/-- Month arithmetic lands on a calendar month. -/
theorem addMonths_month_bounds (d : Date) (n : Int) :
    1 ≤ (addMonths d n).month ∧ (addMonths d n).month ≤ 12 := by
  have h1 : 0 ≤ (mIdx d + n).emod 12 := Int.emod_nonneg _ (by norm_num)
  have h2 : (mIdx d + n).emod 12 < 12 := Int.emod_lt_of_pos _ (by norm_num)
  unfold addMonths
  dsimp only
  constructor <;> omega

/-- Lexicographic date order respects the month index (on calendar
months). -/
theorem mIdx_le_of_dltB {a b : Date} (ha : 1 ≤ a.month ∧ a.month ≤ 12)
    (hb : 1 ≤ b.month ∧ b.month ≤ 12) (h : dltB a b = true) :
    mIdx a ≤ mIdx b := by
  unfold dltB at h
  simp only [Bool.or_eq_true, Bool.and_eq_true, decide_eq_true_eq,
    beq_iff_eq] at h
  unfold mIdx
  rcases h with h | ⟨he, h | ⟨hm, _⟩⟩
  · omega
  · omega
  · omega

/-- A date with a strictly larger month index is not smaller. -/
theorem not_dltB_of_mIdx_lt {a b : Date} (ha : 1 ≤ a.month ∧ a.month ≤ 12)
    (hb : 1 ≤ b.month ∧ b.month ≤ 12) (h : mIdx b < mIdx a) :
    dltB a b = false := by
  by_contra hc
  rw [Bool.not_eq_false] at hc
  have := mIdx_le_of_dltB ha hb hc
  omega

/-- A date exactly ten months before today is not before the
eleven-month threshold. -/
theorem ten_months_not_before_eleven (today : Date) :
    dltB (addMonths today (-10)) (subDelta today (RDelta.months 11)) = false := by
  show dltB (addMonths today (-10)) (addMonths today (-11)) = false
  refine not_dltB_of_mIdx_lt (addMonths_month_bounds today (-10))
    (addMonths_month_bounds today (-11)) ?_
  rw [mIdx_addMonths, mIdx_addMonths]
  omega

/-- Membership is preserved by the current-check step. -/
theorem stepCur_mem_of {a : String} {l : List String}
    (today d : Date) (curTh : RDelta) (curAct : String → String)
    (h : a ∈ l) : a ∈ stepCur today d curTh curAct l := by
  unfold stepCur
  split
  · exact mem_addU_of h
  · exact h

/-- A triggered current check adds its action. -/
theorem stepCur_trigger {l : List String}
    (today d : Date) (curTh : RDelta) (curAct : String → String)
    (hc : dltB d (subDelta today curTh) = true) :
    curAct (formatDate d) ∈ stepCur today d curTh curAct l := by
  unfold stepCur
  rw [if_pos hc]
  exact mem_addU_self

/-- Inversion of the current-check step. -/
theorem stepCur_inv {a : String} {l : List String}
    {today d : Date} {curTh : RDelta} {curAct : String → String}
    (h : a ∈ stepCur today d curTh curAct l) :
    a ∈ l ∨ (dltB d (subDelta today curTh) = true ∧ a = curAct (formatDate d)) := by
  unfold stepCur at h
  split at h
  · next hc =>
    rcases mem_addU.mp h with h1 | h1
    · exact Or.inl h1
    · exact Or.inr ⟨hc, h1⟩
  · exact Or.inl h

/-- The current-check step preserves distinctness. -/
theorem stepCur_nodup {l : List String}
    (today d : Date) (curTh : RDelta) (curAct : String → String)
    (h : l.Nodup) : (stepCur today d curTh curAct l).Nodup := by
  unfold stepCur
  split
  · exact nodup_addU h
  · exact h

/-- Membership is preserved by the future-check step. -/
theorem stepFut_mem_of {a : String} {l : List String}
    (today d : Date) (fw : RDelta) (fa : String → String)
    (h : a ∈ l) : a ∈ stepFut today d fw fa l := by
  unfold stepFut
  split
  · exact mem_addU_of h
  · exact h

/-- A triggered future check adds its action. -/
theorem stepFut_trigger {l : List String}
    (today d : Date) (fw : RDelta) (fa : String → String)
    (hc : (dleB today (addDelta d fw) &&
      dltB (addDelta d fw) (addMonths today 3)) = true) :
    fa (formatDate d) ∈ stepFut today d fw fa l := by
  unfold stepFut
  rw [if_pos hc]
  exact mem_addU_self

/-- Inversion of the future-check step. -/
theorem stepFut_inv {a : String} {l : List String}
    {today d : Date} {fw : RDelta} {fa : String → String}
    (h : a ∈ stepFut today d fw fa l) :
    a ∈ l ∨ ((dleB today (addDelta d fw) &&
      dltB (addDelta d fw) (addMonths today 3)) = true ∧
      a = fa (formatDate d)) := by
  unfold stepFut at h
  split at h
  · next hc =>
    rcases mem_addU.mp h with h1 | h1
    · exact Or.inl h1
    · exact Or.inr ⟨hc, h1⟩
  · exact Or.inl h

/-- The future-check step preserves distinctness. -/
theorem stepFut_nodup {l : List String}
    (today d : Date) (fw : RDelta) (fa : String → String)
    (h : l.Nodup) : (stepFut today d fw fa l).Nodup := by
  unfold stepFut
  split
  · exact nodup_addU h
  · exact h

/-- The current-month component of a standard-rule iteration. -/
theorem processStd_fst (today : Date) (dbd : Option Date) (curTh : RDelta)
    (futW : Option RDelta) (curAct : String → String)
    (futAct : Option (String → String)) (acc : List String × List String) :
    (processStd today dbd curTh futW curAct futAct acc).1 =
      match dbd with
      | none => acc.1
      | some d => stepCur today d curTh curAct acc.1 := by
  cases dbd with
  | none => rfl
  | some d => cases futAct <;> cases futW <;> rfl

/-- The future component of a standard-rule iteration. -/
theorem processStd_snd (today : Date) (dbd : Option Date) (curTh : RDelta)
    (futW : Option RDelta) (curAct : String → String)
    (futAct : Option (String → String)) (acc : List String × List String) :
    (processStd today dbd curTh futW curAct futAct acc).2 =
      match dbd, futAct, futW with
      | some d, some fa, some fw => stepFut today d fw fa acc.2
      | _, _, _ => acc.2 := by
  cases dbd <;> cases futAct <;> cases futW <;> rfl

/-- The current-month component of Rule 4. -/
theorem processR4_fst (today : Date) (cd : CompanyData)
    (acc : List String × List String) :
    (processR4 today cd acc).1 =
      match cd.date_last_sanction, cd.date_of_bank_credit_report with
      | some dls, some dbcr =>
        if dltB dbcr dls && dltB dls (subDelta today (RDelta.months 11)) then
          addU acc.1 (r4Msg (formatDate dbcr))
        else acc.1
      | _, _ => acc.1 := by
  unfold processR4
  cases cd.date_last_sanction <;> cases cd.date_of_bank_credit_report <;> rfl

/-- The future component of Rule 4. -/
theorem processR4_snd (today : Date) (cd : CompanyData)
    (acc : List String × List String) :
    (processR4 today cd acc).2 =
      match cd.date_last_sanction, cd.date_of_bank_credit_report with
      | some _dls, some dbcr =>
        if dleB today (addMonths dbcr 11) &&
            dltB (addMonths dbcr 11) (addMonths today 3) then
          addU acc.2 (r4Msg (formatDate dbcr))
        else acc.2
      | _, _ => acc.2 := by
  unfold processR4
  cases cd.date_last_sanction <;> cases cd.date_of_bank_credit_report <;> rfl

/-- The current-month component of Rule 7's current check. -/
theorem processR7Cur_fst (today : Date) (cd : CompanyData)
    (acc : List String × List String) :
    (processR7Cur today cd acc).1 =
      match cd.date_of_last_audit with
      | some dla =>
        if dltB dla (subDelta today (RDelta.months 11)) then
          addU acc.1 (r7CurMsg (formatDate dla))
        else acc.1
      | none => acc.1 := by
  unfold processR7Cur
  cases cd.date_of_last_audit with
  | none => rfl
  | some dla => dsimp only; split <;> rfl

/-- Rule 7's current check does not touch the future list. -/
theorem processR7Cur_snd (today : Date) (cd : CompanyData)
    (acc : List String × List String) :
    (processR7Cur today cd acc).2 = acc.2 := by
  unfold processR7Cur
  cases cd.date_of_last_audit with
  | none => rfl
  | some dla => dsimp only; split <;> rfl

/-- Rule 7's future check does not touch the current list. -/
theorem processR7Fut_fst (today : Date) (cd : CompanyData)
    (acc : List String × List String) :
    (processR7Fut today cd acc).1 = acc.1 := by
  unfold processR7Fut
  cases cd.date_of_bank_credit_report <;> cases cd.date_of_last_audit <;>
    first
    | rfl
    | (dsimp only; split <;> rfl)

/-- The future component of Rule 7's future check. -/
theorem processR7Fut_snd (today : Date) (cd : CompanyData)
    (acc : List String × List String) :
    (processR7Fut today cd acc).2 =
      match cd.date_of_bank_credit_report, cd.date_of_last_audit with
      | some dbcr, some dla =>
        if dleB today (addMonths dbcr 11) &&
            dltB (addMonths dbcr 11) (addMonths today 3) then
          addU acc.2 (r7FutMsg (formatDate dla))
        else acc.2
      | _, _ => acc.2 := by
  unfold processR7Fut
  cases cd.date_of_bank_credit_report <;> cases cd.date_of_last_audit <;>
    first
    | rfl
    | (dsimp only; split <;> rfl)

/-- Inversion: the current-month component of a standard-rule
iteration only grows by the rule's own triggered action. -/
theorem processStd_fst_inv {a : String} {today : Date} {dbd : Option Date}
    {curTh : RDelta} {futW : Option RDelta} {curAct : String → String}
    {futAct : Option (String → String)} {acc : List String × List String}
    (h : a ∈ (processStd today dbd curTh futW curAct futAct acc).1) :
    a ∈ acc.1 ∨ ∃ d, dbd = some d ∧ dltB d (subDelta today curTh) = true ∧
      a = curAct (formatDate d) := by
  rw [processStd_fst] at h
  cases hd : dbd with
  | none => rw [hd] at h; exact Or.inl h
  | some d =>
    rw [hd] at h
    rcases stepCur_inv h with h1 | ⟨hc, he⟩
    · exact Or.inl h1
    · exact Or.inr ⟨d, rfl, hc, he⟩

/-- Inversion for the future component of a standard-rule iteration. -/
theorem processStd_snd_inv {a : String} {today : Date} {dbd : Option Date}
    {curTh : RDelta} {futW : Option RDelta} {curAct : String → String}
    {futAct : Option (String → String)} {acc : List String × List String}
    (h : a ∈ (processStd today dbd curTh futW curAct futAct acc).2) :
    a ∈ acc.2 ∨ ∃ d fa fw, dbd = some d ∧ futAct = some fa ∧ futW = some fw ∧
      (dleB today (addDelta d fw) &&
        dltB (addDelta d fw) (addMonths today 3)) = true ∧
      a = fa (formatDate d) := by
  rw [processStd_snd] at h
  cases hd : dbd with
  | none => rw [hd] at h; exact Or.inl h
  | some d =>
    rw [hd] at h
    cases hf : futAct with
    | none => rw [hf] at h; exact Or.inl h
    | some fa =>
      rw [hf] at h
      cases hw : futW with
      | none => rw [hw] at h; exact Or.inl h
      | some fw =>
        rw [hw] at h
        rcases stepFut_inv h with h1 | ⟨hc, he⟩
        · exact Or.inl h1
        · exact Or.inr ⟨d, fa, fw, rfl, rfl, rfl, hc, he⟩

/-- Standard-rule iterations keep earlier current-month actions. -/
theorem processStd_fst_mem_of {a : String} (today : Date) (dbd : Option Date)
    (curTh : RDelta) (futW : Option RDelta) (curAct : String → String)
    (futAct : Option (String → String)) (acc : List String × List String)
    (h : a ∈ acc.1) : a ∈ (processStd today dbd curTh futW curAct futAct acc).1 := by
  rw [processStd_fst]
  cases dbd with
  | none => exact h
  | some d => exact stepCur_mem_of _ _ _ _ h

/-- Standard-rule iterations keep earlier future actions. -/
theorem processStd_snd_mem_of {a : String} (today : Date) (dbd : Option Date)
    (curTh : RDelta) (futW : Option RDelta) (curAct : String → String)
    (futAct : Option (String → String)) (acc : List String × List String)
    (h : a ∈ acc.2) : a ∈ (processStd today dbd curTh futW curAct futAct acc).2 := by
  rw [processStd_snd]
  cases dbd <;> cases futAct <;> cases futW <;> first | exact h | exact stepFut_mem_of _ _ _ _ h

/-- A triggered standard rule emits its current action. -/
theorem processStd_cur_trigger {today d : Date} {dbd : Option Date}
    (curTh : RDelta) (futW : Option RDelta) (curAct : String → String)
    (futAct : Option (String → String)) (acc : List String × List String)
    (hd : dbd = some d) (hc : dltB d (subDelta today curTh) = true) :
    curAct (formatDate d) ∈ (processStd today dbd curTh futW curAct futAct acc).1 := by
  rw [processStd_fst, hd]
  exact stepCur_trigger _ _ _ _ hc

/-- A triggered standard rule emits its future action. -/
theorem processStd_fut_trigger {today d : Date} {dbd : Option Date}
    (curTh : RDelta) (fw : RDelta) (curAct : String → String)
    (fa : String → String) (acc : List String × List String)
    (hd : dbd = some d)
    (hc : (dleB today (addDelta d fw) &&
      dltB (addDelta d fw) (addMonths today 3)) = true) :
    fa (formatDate d) ∈
      (processStd today dbd curTh (some fw) curAct (some fa) acc).2 := by
  rw [processStd_snd, hd]
  exact stepFut_trigger _ _ _ _ hc

/-- Standard-rule iterations preserve distinctness. -/
theorem processStd_nodup (today : Date) (dbd : Option Date)
    (curTh : RDelta) (futW : Option RDelta) (curAct : String → String)
    (futAct : Option (String → String)) (acc : List String × List String)
    (h1 : acc.1.Nodup) (h2 : acc.2.Nodup) :
    (processStd today dbd curTh futW curAct futAct acc).1.Nodup ∧
    (processStd today dbd curTh futW curAct futAct acc).2.Nodup := by
  rw [processStd_fst, processStd_snd]
  cases dbd <;> cases futAct <;> cases futW <;>
    exact ⟨by first | exact h1 | exact stepCur_nodup _ _ _ _ h1,
      by first | exact h2 | exact stepFut_nodup _ _ _ _ h2⟩

/-- Inversion for Rule 4's current component. -/
theorem processR4_fst_inv {a : String} {today : Date} {cd : CompanyData}
    {acc : List String × List String} (h : a ∈ (processR4 today cd acc).1) :
    a ∈ acc.1 ∨ ∃ dls dbcr, cd.date_last_sanction = some dls ∧
      cd.date_of_bank_credit_report = some dbcr ∧
      (dltB dbcr dls && dltB dls (subDelta today (RDelta.months 11))) = true ∧
      a = r4Msg (formatDate dbcr) := by
  rw [processR4_fst] at h
  cases hls : cd.date_last_sanction with
  | none => rw [hls] at h; exact Or.inl h
  | some dls =>
    rw [hls] at h
    cases hbc : cd.date_of_bank_credit_report with
    | none => rw [hbc] at h; exact Or.inl h
    | some dbcr =>
      rw [hbc] at h
      dsimp only at h
      split at h
      · next hc =>
        rcases mem_addU.mp h with h1 | h1
        · exact Or.inl h1
        · exact Or.inr ⟨dls, dbcr, rfl, rfl, hc, h1⟩
      · exact Or.inl h

/-- Inversion for Rule 4's future component. -/
theorem processR4_snd_inv {a : String} {today : Date} {cd : CompanyData}
    {acc : List String × List String} (h : a ∈ (processR4 today cd acc).2) :
    a ∈ acc.2 ∨ ∃ dls dbcr, cd.date_last_sanction = some dls ∧
      cd.date_of_bank_credit_report = some dbcr ∧
      (dleB today (addMonths dbcr 11) &&
        dltB (addMonths dbcr 11) (addMonths today 3)) = true ∧
      a = r4Msg (formatDate dbcr) := by
  rw [processR4_snd] at h
  cases hls : cd.date_last_sanction with
  | none => rw [hls] at h; exact Or.inl h
  | some dls =>
    rw [hls] at h
    cases hbc : cd.date_of_bank_credit_report with
    | none => rw [hbc] at h; exact Or.inl h
    | some dbcr =>
      rw [hbc] at h
      dsimp only at h
      split at h
      · next hc =>
        rcases mem_addU.mp h with h1 | h1
        · exact Or.inl h1
        · exact Or.inr ⟨dls, dbcr, rfl, rfl, hc, h1⟩
      · exact Or.inl h

/-- Rule 4 keeps earlier current-month actions. -/
theorem processR4_fst_mem_of {a : String} (today : Date) (cd : CompanyData)
    (acc : List String × List String) (h : a ∈ acc.1) :
    a ∈ (processR4 today cd acc).1 := by
  rw [processR4_fst]
  cases cd.date_last_sanction <;> cases cd.date_of_bank_credit_report <;>
    first
    | exact h
    | (dsimp only; split; exacts [mem_addU_of h, h])

/-- Rule 4 keeps earlier future actions. -/
theorem processR4_snd_mem_of {a : String} (today : Date) (cd : CompanyData)
    (acc : List String × List String) (h : a ∈ acc.2) :
    a ∈ (processR4 today cd acc).2 := by
  rw [processR4_snd]
  cases cd.date_last_sanction <;> cases cd.date_of_bank_credit_report <;>
    first
    | exact h
    | (dsimp only; split; exacts [mem_addU_of h, h])

/-- Rule 4 preserves distinctness. -/
theorem processR4_nodup (today : Date) (cd : CompanyData)
    (acc : List String × List String) (h1 : acc.1.Nodup) (h2 : acc.2.Nodup) :
    (processR4 today cd acc).1.Nodup ∧ (processR4 today cd acc).2.Nodup := by
  rw [processR4_fst, processR4_snd]
  cases cd.date_last_sanction <;> cases cd.date_of_bank_credit_report <;>
    exact ⟨by first | exact h1 | (dsimp only; split; exacts [nodup_addU h1, h1]),
      by first | exact h2 | (dsimp only; split; exacts [nodup_addU h2, h2])⟩

/-- Inversion for Rule 7's current component. -/
theorem processR7Cur_fst_inv {a : String} {today : Date} {cd : CompanyData}
    {acc : List String × List String} (h : a ∈ (processR7Cur today cd acc).1) :
    a ∈ acc.1 ∨ ∃ dla, cd.date_of_last_audit = some dla ∧
      dltB dla (subDelta today (RDelta.months 11)) = true ∧
      a = r7CurMsg (formatDate dla) := by
  rw [processR7Cur_fst] at h
  cases hda : cd.date_of_last_audit with
  | none => rw [hda] at h; exact Or.inl h
  | some dla =>
    rw [hda] at h
    dsimp only at h
    split at h
    · next hc =>
      rcases mem_addU.mp h with h1 | h1
      · exact Or.inl h1
      · exact Or.inr ⟨dla, rfl, hc, h1⟩
    · exact Or.inl h

/-- Rule 7's current check keeps earlier actions. -/
theorem processR7Cur_fst_mem_of {a : String} (today : Date) (cd : CompanyData)
    (acc : List String × List String) (h : a ∈ acc.1) :
    a ∈ (processR7Cur today cd acc).1 := by
  rw [processR7Cur_fst]
  cases cd.date_of_last_audit with
  | none => exact h
  | some dla => dsimp only; split; exacts [mem_addU_of h, h]

/-- A triggered Rule 7 current check emits its action. -/
theorem processR7Cur_trigger {today dla : Date} {cd : CompanyData}
    (acc : List String × List String) (hda : cd.date_of_last_audit = some dla)
    (hc : dltB dla (subDelta today (RDelta.months 11)) = true) :
    r7CurMsg (formatDate dla) ∈ (processR7Cur today cd acc).1 := by
  rw [processR7Cur_fst, hda]
  dsimp only
  rw [if_pos hc]
  exact mem_addU_self

/-- Rule 7's current check preserves distinctness. -/
theorem processR7Cur_nodup (today : Date) (cd : CompanyData)
    (acc : List String × List String) (h1 : acc.1.Nodup) (h2 : acc.2.Nodup) :
    (processR7Cur today cd acc).1.Nodup ∧ (processR7Cur today cd acc).2.Nodup := by
  rw [processR7Cur_fst, processR7Cur_snd]
  refine ⟨?_, h2⟩
  cases cd.date_of_last_audit with
  | none => exact h1
  | some dla => dsimp only; split; exacts [nodup_addU h1, h1]

/-- Inversion for Rule 7's future component. -/
theorem processR7Fut_snd_inv {a : String} {today : Date} {cd : CompanyData}
    {acc : List String × List String} (h : a ∈ (processR7Fut today cd acc).2) :
    a ∈ acc.2 ∨ ∃ dbcr dla, cd.date_of_bank_credit_report = some dbcr ∧
      cd.date_of_last_audit = some dla ∧
      (dleB today (addMonths dbcr 11) &&
        dltB (addMonths dbcr 11) (addMonths today 3)) = true ∧
      a = r7FutMsg (formatDate dla) := by
  rw [processR7Fut_snd] at h
  cases hbc : cd.date_of_bank_credit_report with
  | none => rw [hbc] at h; exact Or.inl h
  | some dbcr =>
    rw [hbc] at h
    cases hda : cd.date_of_last_audit with
    | none => rw [hda] at h; exact Or.inl h
    | some dla =>
      rw [hda] at h
      dsimp only at h
      split at h
      · next hc =>
        rcases mem_addU.mp h with h1 | h1
        · exact Or.inl h1
        · exact Or.inr ⟨dbcr, dla, rfl, rfl, hc, h1⟩
      · exact Or.inl h

/-- A triggered Rule 7 future check emits its action. -/
theorem processR7Fut_trigger {today dbcr dla : Date} {cd : CompanyData}
    (acc : List String × List String)
    (hbc : cd.date_of_bank_credit_report = some dbcr)
    (hda : cd.date_of_last_audit = some dla)
    (hc : (dleB today (addMonths dbcr 11) &&
      dltB (addMonths dbcr 11) (addMonths today 3)) = true) :
    r7FutMsg (formatDate dla) ∈ (processR7Fut today cd acc).2 := by
  rw [processR7Fut_snd, hbc, hda]
  dsimp only
  rw [if_pos hc]
  exact mem_addU_self

/-- Rule 7's future check preserves distinctness. -/
theorem processR7Fut_nodup (today : Date) (cd : CompanyData)
    (acc : List String × List String) (h1 : acc.1.Nodup) (h2 : acc.2.Nodup) :
    (processR7Fut today cd acc).1.Nodup ∧ (processR7Fut today cd acc).2.Nodup := by
  rw [processR7Fut_fst, processR7Fut_snd]
  refine ⟨h1, ?_⟩
  cases cd.date_of_bank_credit_report <;> cases cd.date_of_last_audit <;>
    first
    | exact h2
    | (dsimp only; split; exacts [nodup_addU h2, h2])

/-- The generator, written as the explicit composition of its rule
steps (the `let` chain of the definition, zeta-reduced). -/
theorem gen_eq (today : Date) (cd : CompanyData) :
    generate_recommendations today cd =
      processR7Fut today cd (processR7Cur today cd (processR4 today cd
        (processStd today cd.date_stock_statement (RDelta.days 10) none
          stockMsg none
          (processStd today cd.date_tev_report (RDelta.months 36)
            (some (RDelta.months 36)) tevMsg (some tevMsg)
            (processStd today cd.date_external_rating (RDelta.months 6)
              (some (RDelta.months 6)) extRatMsg (some extRatMsg)
              (processStd today cd.date_internal_rating (RDelta.months 6)
                (some (RDelta.months 6)) intRatMsg (some intRatMsg)
                (processStd today cd.date_lsr (RDelta.months 36)
                  (some (RDelta.months 36)) lsrMsg (some lsrMsg)
                  (processStd today cd.date_last_sanction (RDelta.months 11)
                    (some (RDelta.months 12)) sancCurMsg (some sancFutMsg)
                    (processStd today cd.date_valuation_report
                      (RDelta.months 36) (some (RDelta.months 36)) valMsg
                      (some valMsg) ([], [])))))))))) := rfl

/-- Inversion for the whole current-month list: every member comes from
one of the nine current checks, with its trigger condition. -/
theorem mem_gen_fst {a : String} {today : Date} {cd : CompanyData}
    (h : a ∈ (generate_recommendations today cd).1) :
    (∃ d, cd.date_valuation_report = some d ∧
      dltB d (subDelta today (RDelta.months 36)) = true ∧
      a = valMsg (formatDate d)) ∨
    (∃ d, cd.date_last_sanction = some d ∧
      dltB d (subDelta today (RDelta.months 11)) = true ∧
      a = sancCurMsg (formatDate d)) ∨
    (∃ d, cd.date_lsr = some d ∧
      dltB d (subDelta today (RDelta.months 36)) = true ∧
      a = lsrMsg (formatDate d)) ∨
    (∃ d, cd.date_internal_rating = some d ∧
      dltB d (subDelta today (RDelta.months 6)) = true ∧
      a = intRatMsg (formatDate d)) ∨
    (∃ d, cd.date_external_rating = some d ∧
      dltB d (subDelta today (RDelta.months 6)) = true ∧
      a = extRatMsg (formatDate d)) ∨
    (∃ d, cd.date_tev_report = some d ∧
      dltB d (subDelta today (RDelta.months 36)) = true ∧
      a = tevMsg (formatDate d)) ∨
    (∃ d, cd.date_stock_statement = some d ∧
      dltB d (subDelta today (RDelta.days 10)) = true ∧
      a = stockMsg (formatDate d)) ∨
    (∃ dls dbcr, cd.date_last_sanction = some dls ∧
      cd.date_of_bank_credit_report = some dbcr ∧
      (dltB dbcr dls && dltB dls (subDelta today (RDelta.months 11))) = true ∧
      a = r4Msg (formatDate dbcr)) ∨
    (∃ dla, cd.date_of_last_audit = some dla ∧
      dltB dla (subDelta today (RDelta.months 11)) = true ∧
      a = r7CurMsg (formatDate dla)) := by
  rw [gen_eq, processR7Fut_fst] at h
  rcases processR7Cur_fst_inv h with h | h9
  · rcases processR4_fst_inv h with h | h8
    · rcases processStd_fst_inv h with h | h7
      · rcases processStd_fst_inv h with h | h6
        · rcases processStd_fst_inv h with h | h5
          · rcases processStd_fst_inv h with h | h4
            · rcases processStd_fst_inv h with h | h3
              · rcases processStd_fst_inv h with h | h2
                · rcases processStd_fst_inv h with h | h1
                  · simp at h
                  · exact Or.inl h1
                · exact Or.inr (Or.inl h2)
              · exact Or.inr (Or.inr (Or.inl h3))
            · exact Or.inr (Or.inr (Or.inr (Or.inl h4)))
          · exact Or.inr (Or.inr (Or.inr (Or.inr (Or.inl h5))))
        · exact Or.inr (Or.inr (Or.inr (Or.inr (Or.inr (Or.inl h6)))))
      · exact Or.inr (Or.inr (Or.inr (Or.inr (Or.inr (Or.inr (Or.inl h7))))))
    · exact Or.inr (Or.inr (Or.inr (Or.inr (Or.inr (Or.inr (Or.inr (Or.inl h8)))))))
  · exact Or.inr (Or.inr (Or.inr (Or.inr (Or.inr (Or.inr (Or.inr (Or.inr h9)))))))

/-- Inversion for the whole future list: every member comes from one of
the eight future checks, with its window condition. -/
theorem mem_gen_snd {a : String} {today : Date} {cd : CompanyData}
    (h : a ∈ (generate_recommendations today cd).2) :
    (∃ d, cd.date_valuation_report = some d ∧
      (dleB today (addMonths d 36) &&
        dltB (addMonths d 36) (addMonths today 3)) = true ∧
      a = valMsg (formatDate d)) ∨
    (∃ d, cd.date_last_sanction = some d ∧
      (dleB today (addMonths d 12) &&
        dltB (addMonths d 12) (addMonths today 3)) = true ∧
      a = sancFutMsg (formatDate d)) ∨
    (∃ d, cd.date_lsr = some d ∧
      (dleB today (addMonths d 36) &&
        dltB (addMonths d 36) (addMonths today 3)) = true ∧
      a = lsrMsg (formatDate d)) ∨
    (∃ d, cd.date_internal_rating = some d ∧
      (dleB today (addMonths d 6) &&
        dltB (addMonths d 6) (addMonths today 3)) = true ∧
      a = intRatMsg (formatDate d)) ∨
    (∃ d, cd.date_external_rating = some d ∧
      (dleB today (addMonths d 6) &&
        dltB (addMonths d 6) (addMonths today 3)) = true ∧
      a = extRatMsg (formatDate d)) ∨
    (∃ d, cd.date_tev_report = some d ∧
      (dleB today (addMonths d 36) &&
        dltB (addMonths d 36) (addMonths today 3)) = true ∧
      a = tevMsg (formatDate d)) ∨
    (∃ dls dbcr, cd.date_last_sanction = some dls ∧
      cd.date_of_bank_credit_report = some dbcr ∧
      (dleB today (addMonths dbcr 11) &&
        dltB (addMonths dbcr 11) (addMonths today 3)) = true ∧
      a = r4Msg (formatDate dbcr)) ∨
    (∃ dbcr dla, cd.date_of_bank_credit_report = some dbcr ∧
      cd.date_of_last_audit = some dla ∧
      (dleB today (addMonths dbcr 11) &&
        dltB (addMonths dbcr 11) (addMonths today 3)) = true ∧
      a = r7FutMsg (formatDate dla)) := by
  rw [gen_eq] at h
  rcases processR7Fut_snd_inv h with h | h8
  · rw [processR7Cur_snd] at h
    rcases processR4_snd_inv h with h | h7
    · rcases processStd_snd_inv h with h | ⟨d, fa, fw, hd, hfa, hfw, hc, he⟩
      · rcases processStd_snd_inv h with h | ⟨d, fa, fw, hd, hfa, hfw, hc, he⟩
        · rcases processStd_snd_inv h with h | ⟨d, fa, fw, hd, hfa, hfw, hc, he⟩
          · rcases processStd_snd_inv h with h | ⟨d, fa, fw, hd, hfa, hfw, hc, he⟩
            · rcases processStd_snd_inv h with h | ⟨d, fa, fw, hd, hfa, hfw, hc, he⟩
              · rcases processStd_snd_inv h with h | ⟨d, fa, fw, hd, hfa, hfw, hc, he⟩
                · rcases processStd_snd_inv h with h | ⟨d, fa, fw, hd, hfa, hfw, hc, he⟩
                  · simp at h
                  · cases Option.some.inj hfa
                    cases Option.some.inj hfw
                    exact Or.inl ⟨d, hd, hc, he⟩
                · cases Option.some.inj hfa
                  cases Option.some.inj hfw
                  exact Or.inr (Or.inl ⟨d, hd, hc, he⟩)
              · cases Option.some.inj hfa
                cases Option.some.inj hfw
                exact Or.inr (Or.inr (Or.inl ⟨d, hd, hc, he⟩))
            · cases Option.some.inj hfa
              cases Option.some.inj hfw
              exact Or.inr (Or.inr (Or.inr (Or.inl ⟨d, hd, hc, he⟩)))
          · cases Option.some.inj hfa
            cases Option.some.inj hfw
            exact Or.inr (Or.inr (Or.inr (Or.inr (Or.inl ⟨d, hd, hc, he⟩))))
        · cases Option.some.inj hfa
          cases Option.some.inj hfw
          exact Or.inr (Or.inr (Or.inr (Or.inr (Or.inr (Or.inl ⟨d, hd, hc, he⟩)))))
      · exact Option.noConfusion hfa
    · exact Or.inr (Or.inr (Or.inr (Or.inr (Or.inr (Or.inr (Or.inl h7))))))
  · exact Or.inr (Or.inr (Or.inr (Or.inr (Or.inr (Or.inr (Or.inr h8))))))

/-- Both recommendation lists are duplicate-free, for every input. -/
theorem gen_nodup (today : Date) (cd : CompanyData) :
    (generate_recommendations today cd).1.Nodup ∧
    (generate_recommendations today cd).2.Nodup := by
  rw [gen_eq]
  have hA := processStd_nodup today cd.date_valuation_report
    (RDelta.months 36) (some (RDelta.months 36)) valMsg (some valMsg)
    ([], []) List.nodup_nil List.nodup_nil
  have hB := processStd_nodup today cd.date_last_sanction
    (RDelta.months 11) (some (RDelta.months 12)) sancCurMsg (some sancFutMsg)
    _ hA.1 hA.2
  have hC := processStd_nodup today cd.date_lsr
    (RDelta.months 36) (some (RDelta.months 36)) lsrMsg (some lsrMsg)
    _ hB.1 hB.2
  have hD := processStd_nodup today cd.date_internal_rating
    (RDelta.months 6) (some (RDelta.months 6)) intRatMsg (some intRatMsg)
    _ hC.1 hC.2
  have hE := processStd_nodup today cd.date_external_rating
    (RDelta.months 6) (some (RDelta.months 6)) extRatMsg (some extRatMsg)
    _ hD.1 hD.2
  have hF := processStd_nodup today cd.date_tev_report
    (RDelta.months 36) (some (RDelta.months 36)) tevMsg (some tevMsg)
    _ hE.1 hE.2
  have hG := processStd_nodup today cd.date_stock_statement
    (RDelta.days 10) none stockMsg none _ hF.1 hF.2
  have hH := processR4_nodup today cd _ hG.1 hG.2
  have hI := processR7Cur_nodup today cd _ hH.1 hH.2
  exact processR7Fut_nodup today cd _ hI.1 hI.2

/-- Rule 7's future check keeps earlier future actions. -/
theorem processR7Fut_snd_mem_of {a : String} (today : Date) (cd : CompanyData)
    (acc : List String × List String) (h : a ∈ acc.2) :
    a ∈ (processR7Fut today cd acc).2 := by
  rw [processR7Fut_snd]
  cases cd.date_of_bank_credit_report <;> cases cd.date_of_last_audit <;>
    first
    | exact h
    | (dsimp only; split; exacts [mem_addU_of h, h])

/-- Rendered actions with different first characters differ. -/
theorem msg_head_ne {m1 m2 : String} {c1 c2 : Char} (h1 : headC m1 = some c1)
    (h2 : headC m2 = some c2) (hne : c1 ≠ c2) : m1 ≠ m2 := by
  intro he
  rw [he, h2] at h1
  exact hne (Option.some.inj h1).symm

/-- C3: a last-sanction date strictly before today minus 11 months
yields the renewal current-month action; a date exactly 10 months
before today yields no renewal current-month action; a date whose
one-year anniversary falls within [today, today + 3 months) yields the
future renewal action; and neither list ever contains a duplicate. -/
theorem C3_date_last_sanction_rule (today : Date) (cd : CompanyData) :
    (∀ d, cd.date_last_sanction = some d →
      dltB d (subDelta today (RDelta.months 11)) = true →
      sancCurMsg (formatDate d) ∈ (generate_recommendations today cd).1) ∧
    (cd.date_last_sanction = some (addMonths today (-10)) →
      ∀ fd, sancCurMsg fd ∉ (generate_recommendations today cd).1) ∧
    (∀ d, cd.date_last_sanction = some d →
      (dleB today (addMonths d 12) &&
        dltB (addMonths d 12) (addMonths today 3)) = true →
      sancFutMsg (formatDate d) ∈ (generate_recommendations today cd).2) ∧
    (generate_recommendations today cd).1.Nodup ∧
    (generate_recommendations today cd).2.Nodup := by
  refine ⟨?_, ?_, ?_, (gen_nodup today cd).1, (gen_nodup today cd).2⟩
  · intro d hd hc
    rw [gen_eq, processR7Fut_fst]
    apply processR7Cur_fst_mem_of
    apply processR4_fst_mem_of
    apply processStd_fst_mem_of
    apply processStd_fst_mem_of
    apply processStd_fst_mem_of
    apply processStd_fst_mem_of
    apply processStd_fst_mem_of
    exact processStd_cur_trigger _ _ _ _ _ hd hc
  · intro hls fd hmem
    rcases mem_gen_fst hmem with ⟨d, hd, hc, he⟩ | ⟨d, hd, hc, he⟩ |
      ⟨d, hd, hc, he⟩ | ⟨d, hd, hc, he⟩ | ⟨d, hd, hc, he⟩ | ⟨d, hd, hc, he⟩ |
      ⟨d, hd, hc, he⟩ | ⟨dls, dbcr, hd1, hd2, hc, he⟩ | ⟨d, hd, hc, he⟩
    · exact msg_head_ne (headC_sancCurMsg fd) (headC_valMsg _) (by decide) he
    · rw [hls] at hd
      cases Option.some.inj hd
      rw [ten_months_not_before_eleven] at hc
      simp at hc
    · exact msg_head_ne (headC_sancCurMsg fd) (headC_lsrMsg _) (by decide) he
    · exact msg_head_ne (headC_sancCurMsg fd) (headC_intRatMsg _) (by decide) he
    · exact msg_head_ne (headC_sancCurMsg fd) (headC_extRatMsg _) (by decide) he
    · exact msg_head_ne (headC_sancCurMsg fd) (headC_tevMsg _) (by decide) he
    · exact msg_head_ne (headC_sancCurMsg fd) (headC_stockMsg _) (by decide) he
    · exact msg_head_ne (headC_sancCurMsg fd) (headC_r4Msg _) (by decide) he
    · exact msg_head_ne (headC_sancCurMsg fd) (headC_r7CurMsg _) (by decide) he
  · intro d hd hc
    rw [gen_eq]
    apply processR7Fut_snd_mem_of
    rw [processR7Cur_snd]
    apply processR4_snd_mem_of
    apply processStd_snd_mem_of
    apply processStd_snd_mem_of
    apply processStd_snd_mem_of
    apply processStd_snd_mem_of
    apply processStd_snd_mem_of
    exact processStd_fut_trigger _ _ _ _ _ hd hc

/-- Witness for C3 on a system date of 12 October 2026: a sanction
date of 5 January 2025 triggers the current action, exactly ten months
back (12 December 2025) triggers nothing, and 20 November 2025 (whose
one-year anniversary is 20 November 2026) triggers the future action. -/
theorem C3_date_last_sanction_rule_witness :
    sancCurMsg (formatDate ⟨2025, 1, 5⟩) ∈
      (generate_recommendations ⟨2026, 10, 12⟩
        ⟨none, some ⟨2025, 1, 5⟩, none, none, none, none, none, none, none⟩).1 ∧
    sancCurMsg (formatDate (addMonths ⟨2026, 10, 12⟩ (-10))) ∉
      (generate_recommendations ⟨2026, 10, 12⟩
        ⟨none, some (addMonths ⟨2026, 10, 12⟩ (-10)), none, none, none, none,
          none, none, none⟩).1 ∧
    sancFutMsg (formatDate ⟨2025, 11, 20⟩) ∈
      (generate_recommendations ⟨2026, 10, 12⟩
        ⟨none, some ⟨2025, 11, 20⟩, none, none, none, none, none, none, none⟩).2 ∧
    (generate_recommendations ⟨2026, 10, 12⟩
      ⟨none, some ⟨2025, 1, 5⟩, none, none, none, none, none, none, none⟩).1.Nodup :=
  ⟨(C3_date_last_sanction_rule ⟨2026, 10, 12⟩
      ⟨none, some ⟨2025, 1, 5⟩, none, none, none, none, none, none, none⟩).1
      ⟨2025, 1, 5⟩ rfl (by decide),
    (C3_date_last_sanction_rule ⟨2026, 10, 12⟩
      ⟨none, some (addMonths ⟨2026, 10, 12⟩ (-10)), none, none, none, none,
        none, none, none⟩).2.1 rfl (formatDate (addMonths ⟨2026, 10, 12⟩ (-10))),
    (C3_date_last_sanction_rule ⟨2026, 10, 12⟩
      ⟨none, some ⟨2025, 11, 20⟩, none, none, none, none, none, none, none⟩).2.2.1
      ⟨2025, 11, 20⟩ rfl (by decide),
    (C3_date_last_sanction_rule ⟨2026, 10, 12⟩
      ⟨none, some ⟨2025, 1, 5⟩, none, none, none, none, none, none, none⟩).2.2.2.1⟩

/-- Appending to a common left part is injective on the right part. -/
theorem string_append_left_cancel (p x y : String) (h : p ++ x = p ++ y) :
    x = y := by
  have h1 : p.data ++ x.data = p.data ++ y.data := by
    have h2 : (p ++ x).data = (p ++ y).data := by rw [h]
    exact h2
  have h3 : x.data = y.data := List.append_cancel_left h1
  cases x
  cases y
  exact congrArg String.mk h3

/-- C4: the Rule 7 current-month action appears exactly when the
last-audit date is present and more than 11 months stale (independent
of the bank-credit-report date); the future action fires exactly when
the bank-credit-report date plus 11 months falls in the next-3-months
window and both dates are present — if it fires, it renders the
last-audit date, and no Rule 7 future action appears when the window
fails or either date is absent; in particular with the last-audit date
absent nothing is emitted even when the trigger condition holds. -/
theorem C4_credit_audit_rule (today : Date) (cd : CompanyData) :
    ((∃ fd, r7CurMsg fd ∈ (generate_recommendations today cd).1) ↔
      (∃ dla, cd.date_of_last_audit = some dla ∧
        dltB dla (subDelta today (RDelta.months 11)) = true)) ∧
    (∀ dbcr dla, cd.date_of_bank_credit_report = some dbcr →
      cd.date_of_last_audit = some dla →
      (dleB today (addMonths dbcr 11) &&
        dltB (addMonths dbcr 11) (addMonths today 3)) = true →
      r7FutMsg (formatDate dla) ∈ (generate_recommendations today cd).2) ∧
    (∀ fd, r7FutMsg fd ∈ (generate_recommendations today cd).2 →
      ∃ dbcr dla, cd.date_of_bank_credit_report = some dbcr ∧
        cd.date_of_last_audit = some dla ∧
        (dleB today (addMonths dbcr 11) &&
          dltB (addMonths dbcr 11) (addMonths today 3)) = true ∧
        fd = formatDate dla) ∧
    (cd.date_of_last_audit = none →
      ∀ fd, r7FutMsg fd ∉ (generate_recommendations today cd).2) := by
  refine ⟨⟨?_, ?_⟩, ?_, ?_, ?_⟩
  · rintro ⟨fd, hmem⟩
    rcases mem_gen_fst hmem with ⟨d, hd, hc, he⟩ | ⟨d, hd, hc, he⟩ |
      ⟨d, hd, hc, he⟩ | ⟨d, hd, hc, he⟩ | ⟨d, hd, hc, he⟩ | ⟨d, hd, hc, he⟩ |
      ⟨d, hd, hc, he⟩ | ⟨dls, dbcr, hd1, hd2, hc, he⟩ | ⟨d, hd, hc, he⟩
    · exact absurd he (msg_head_ne (headC_r7CurMsg fd) (headC_valMsg _) (by decide))
    · exact absurd he (msg_head_ne (headC_r7CurMsg fd) (headC_sancCurMsg _) (by decide))
    · exact absurd he (msg_head_ne (headC_r7CurMsg fd) (headC_lsrMsg _) (by decide))
    · exact absurd he (msg_head_ne (headC_r7CurMsg fd) (headC_intRatMsg _) (by decide))
    · exact absurd he (msg_head_ne (headC_r7CurMsg fd) (headC_extRatMsg _) (by decide))
    · exact absurd he (msg_head_ne (headC_r7CurMsg fd) (headC_tevMsg _) (by decide))
    · exact absurd he (msg_head_ne (headC_r7CurMsg fd) (headC_stockMsg _) (by decide))
    · exact absurd he (msg_head_ne (headC_r7CurMsg fd) (headC_r4Msg _) (by decide))
    · exact ⟨d, hd, hc⟩
  · rintro ⟨dla, hda, hc⟩
    refine ⟨formatDate dla, ?_⟩
    rw [gen_eq, processR7Fut_fst]
    exact processR7Cur_trigger _ hda hc
  · intro dbcr dla hbc hda hc
    rw [gen_eq]
    exact processR7Fut_trigger _ hbc hda hc
  · intro fd hmem
    rcases mem_gen_snd hmem with ⟨d, hd, hc, he⟩ | ⟨d, hd, hc, he⟩ |
      ⟨d, hd, hc, he⟩ | ⟨d, hd, hc, he⟩ | ⟨d, hd, hc, he⟩ | ⟨d, hd, hc, he⟩ |
      ⟨dls, dbcr, hd1, hd2, hc, he⟩ | ⟨dbcr, dla, hd1, hd2, hc, he⟩
    · exact absurd he (msg_head_ne (headC_r7FutMsg fd) (headC_valMsg _) (by decide))
    · exact absurd he (msg_head_ne (headC_r7FutMsg fd) (headC_sancFutMsg _) (by decide))
    · exact absurd he (msg_head_ne (headC_r7FutMsg fd) (headC_lsrMsg _) (by decide))
    · exact absurd he (msg_head_ne (headC_r7FutMsg fd) (headC_intRatMsg _) (by decide))
    · exact absurd he (msg_head_ne (headC_r7FutMsg fd) (headC_extRatMsg _) (by decide))
    · exact absurd he (msg_head_ne (headC_r7FutMsg fd) (headC_tevMsg _) (by decide))
    · exact absurd he (msg_head_ne (headC_r7FutMsg fd) (headC_r4Msg _) (by decide))
    · refine ⟨dbcr, dla, hd1, hd2, hc, ?_⟩
      exact string_append_left_cancel
        "Account will be due for Credit Audit as the last audit was done on "
        fd (formatDate dla) he
  · intro hda fd hmem
    rcases mem_gen_snd hmem with ⟨d, hd, hc, he⟩ | ⟨d, hd, hc, he⟩ |
      ⟨d, hd, hc, he⟩ | ⟨d, hd, hc, he⟩ | ⟨d, hd, hc, he⟩ | ⟨d, hd, hc, he⟩ |
      ⟨dls, dbcr, hd1, hd2, hc, he⟩ | ⟨dbcr, dla, hd1, hd2, hc, he⟩
    · exact msg_head_ne (headC_r7FutMsg fd) (headC_valMsg _) (by decide) he
    · exact msg_head_ne (headC_r7FutMsg fd) (headC_sancFutMsg _) (by decide) he
    · exact msg_head_ne (headC_r7FutMsg fd) (headC_lsrMsg _) (by decide) he
    · exact msg_head_ne (headC_r7FutMsg fd) (headC_intRatMsg _) (by decide) he
    · exact msg_head_ne (headC_r7FutMsg fd) (headC_extRatMsg _) (by decide) he
    · exact msg_head_ne (headC_r7FutMsg fd) (headC_tevMsg _) (by decide) he
    · exact msg_head_ne (headC_r7FutMsg fd) (headC_r4Msg _) (by decide) he
    · rw [hda] at hd2
      exact Option.noConfusion hd2

/-- Witness for C4 on a system date of 12 October 2026: last audit
5 January 2025 (stale) and bank credit report 1 January 2026 (whose
11-month shift, 1 December 2026, is inside the window); the emitted
future action traces back to exactly those two dates. -/
theorem C4_credit_audit_rule_witness :
    (∃ fd, r7CurMsg fd ∈
      (generate_recommendations ⟨2026, 10, 12⟩
        ⟨none, none, none, none, none, none, none, some ⟨2026, 1, 1⟩,
          some ⟨2025, 1, 5⟩⟩).1) ∧
    r7FutMsg (formatDate ⟨2025, 1, 5⟩) ∈
      (generate_recommendations ⟨2026, 10, 12⟩
        ⟨none, none, none, none, none, none, none, some ⟨2026, 1, 1⟩,
          some ⟨2025, 1, 5⟩⟩).2 ∧
    (∃ dbcr dla,
      (⟨none, none, none, none, none, none, none, some ⟨2026, 1, 1⟩,
        some ⟨2025, 1, 5⟩⟩ : CompanyData).date_of_bank_credit_report =
          some dbcr ∧
      (⟨none, none, none, none, none, none, none, some ⟨2026, 1, 1⟩,
        some ⟨2025, 1, 5⟩⟩ : CompanyData).date_of_last_audit = some dla ∧
      (dleB ⟨2026, 10, 12⟩ (addMonths dbcr 11) &&
        dltB (addMonths dbcr 11) (addMonths ⟨2026, 10, 12⟩ 3)) = true ∧
      formatDate ⟨2025, 1, 5⟩ = formatDate dla) ∧
    r7FutMsg "01.01.2025" ∉
      (generate_recommendations ⟨2026, 10, 12⟩
        ⟨none, none, none, none, none, none, none, some ⟨2026, 1, 1⟩,
          none⟩).2 :=
  ⟨(C4_credit_audit_rule ⟨2026, 10, 12⟩
      ⟨none, none, none, none, none, none, none, some ⟨2026, 1, 1⟩,
        some ⟨2025, 1, 5⟩⟩).1.mpr ⟨⟨2025, 1, 5⟩, rfl, by decide⟩,
    (C4_credit_audit_rule ⟨2026, 10, 12⟩
      ⟨none, none, none, none, none, none, none, some ⟨2026, 1, 1⟩,
        some ⟨2025, 1, 5⟩⟩).2.1 ⟨2026, 1, 1⟩ ⟨2025, 1, 5⟩ rfl rfl (by decide),
    (C4_credit_audit_rule ⟨2026, 10, 12⟩
      ⟨none, none, none, none, none, none, none, some ⟨2026, 1, 1⟩,
        some ⟨2025, 1, 5⟩⟩).2.2.1 (formatDate ⟨2025, 1, 5⟩)
      ((C4_credit_audit_rule ⟨2026, 10, 12⟩
        ⟨none, none, none, none, none, none, none, some ⟨2026, 1, 1⟩,
          some ⟨2025, 1, 5⟩⟩).2.1 ⟨2026, 1, 1⟩ ⟨2025, 1, 5⟩ rfl rfl (by decide)),
    (C4_credit_audit_rule ⟨2026, 10, 12⟩
      ⟨none, none, none, none, none, none, none, some ⟨2026, 1, 1⟩,
        none⟩).2.2.2 rfl "01.01.2025"⟩

end Cred360
